import Mathlib

/-!
Verification development for the TSN configuration parser and tc-command
synthesis pipeline (`tsn_config_parser`: `xml_parser.py`, `yaml_parser.py`,
`universal_parser.py`, `GE_dictionary.py`, `tc_command.py`).

The generic document model is a shallow embedding of the Python value
universe that the parsers produce: `None`, strings, integers, booleans,
(insertion-ordered) dictionaries and lists.  Dictionaries are modelled as
association lists with unique keys in the parse outputs; `dict.get`,
truthiness, `str()` and `int()` are modelled by explicit total functions
(`pyGet`, `pyTruthy`, `pyStr`, `pyToInt`).  Inputs on which the Python code
raises (for example calling `.get` on a scalar, or `int()` on a non-numeric
string) are outside the embedding's domain; at those points the model takes
a documented default, and no theorem below depends on such inputs.
-/

/-- Generic document node: the Python value universe produced by the XML and
YAML parsers.  `null` is Python `None`. -/
inductive JValue where
  | null
  | str (s : String)
  | int (n : Int)
  | bool (b : Bool)
  | obj (fields : List (String × JValue))
  | seq (items : List JValue)

mutual

def JValue.decEq : (a b : JValue) → Decidable (a = b)
  | .null, .null => isTrue rfl
  | .str a, .str b =>
    match String.decEq a b with
    | isTrue h => isTrue (by rw [h])
    | isFalse h => isFalse (fun he => by cases he; exact h rfl)
  | .int a, .int b =>
    match Int.decEq a b with
    | isTrue h => isTrue (by rw [h])
    | isFalse h => isFalse (fun he => by cases he; exact h rfl)
  | .bool a, .bool b =>
    match Bool.decEq a b with
    | isTrue h => isTrue (by rw [h])
    | isFalse h => isFalse (fun he => by cases he; exact h rfl)
  | .obj a, .obj b =>
    match JValue.decEqFields a b with
    | isTrue h => isTrue (by rw [h])
    | isFalse h => isFalse (fun he => by cases he; exact h rfl)
  | .seq a, .seq b =>
    match JValue.decEqItems a b with
    | isTrue h => isTrue (by rw [h])
    | isFalse h => isFalse (fun he => by cases he; exact h rfl)
  | .null, .str _ => isFalse (fun h => JValue.noConfusion h)
  | .null, .int _ => isFalse (fun h => JValue.noConfusion h)
  | .null, .bool _ => isFalse (fun h => JValue.noConfusion h)
  | .null, .obj _ => isFalse (fun h => JValue.noConfusion h)
  | .null, .seq _ => isFalse (fun h => JValue.noConfusion h)
  | .str _, .null => isFalse (fun h => JValue.noConfusion h)
  | .str _, .int _ => isFalse (fun h => JValue.noConfusion h)
  | .str _, .bool _ => isFalse (fun h => JValue.noConfusion h)
  | .str _, .obj _ => isFalse (fun h => JValue.noConfusion h)
  | .str _, .seq _ => isFalse (fun h => JValue.noConfusion h)
  | .int _, .null => isFalse (fun h => JValue.noConfusion h)
  | .int _, .str _ => isFalse (fun h => JValue.noConfusion h)
  | .int _, .bool _ => isFalse (fun h => JValue.noConfusion h)
  | .int _, .obj _ => isFalse (fun h => JValue.noConfusion h)
  | .int _, .seq _ => isFalse (fun h => JValue.noConfusion h)
  | .bool _, .null => isFalse (fun h => JValue.noConfusion h)
  | .bool _, .str _ => isFalse (fun h => JValue.noConfusion h)
  | .bool _, .int _ => isFalse (fun h => JValue.noConfusion h)
  | .bool _, .obj _ => isFalse (fun h => JValue.noConfusion h)
  | .bool _, .seq _ => isFalse (fun h => JValue.noConfusion h)
  | .obj _, .null => isFalse (fun h => JValue.noConfusion h)
  | .obj _, .str _ => isFalse (fun h => JValue.noConfusion h)
  | .obj _, .int _ => isFalse (fun h => JValue.noConfusion h)
  | .obj _, .bool _ => isFalse (fun h => JValue.noConfusion h)
  | .obj _, .seq _ => isFalse (fun h => JValue.noConfusion h)
  | .seq _, .null => isFalse (fun h => JValue.noConfusion h)
  | .seq _, .str _ => isFalse (fun h => JValue.noConfusion h)
  | .seq _, .int _ => isFalse (fun h => JValue.noConfusion h)
  | .seq _, .bool _ => isFalse (fun h => JValue.noConfusion h)
  | .seq _, .obj _ => isFalse (fun h => JValue.noConfusion h)

def JValue.decEqFields : (a b : List (String × JValue)) → Decidable (a = b)
  | [], [] => isTrue rfl
  | [], _ :: _ => isFalse (fun h => List.noConfusion h)
  | _ :: _, [] => isFalse (fun h => List.noConfusion h)
  | (k, v) :: t, (k', v') :: t' =>
    match String.decEq k k', JValue.decEq v v', JValue.decEqFields t t' with
    | isTrue h1, isTrue h2, isTrue h3 => isTrue (by rw [h1, h2, h3])
    | isFalse h1, _, _ => isFalse (fun he => by cases he; exact h1 rfl)
    | _, isFalse h2, _ => isFalse (fun he => by cases he; exact h2 rfl)
    | _, _, isFalse h3 => isFalse (fun he => by cases he; exact h3 rfl)

def JValue.decEqItems : (a b : List JValue) → Decidable (a = b)
  | [], [] => isTrue rfl
  | [], _ :: _ => isFalse (fun h => List.noConfusion h)
  | _ :: _, [] => isFalse (fun h => List.noConfusion h)
  | v :: t, v' :: t' =>
    match JValue.decEq v v', JValue.decEqItems t t' with
    | isTrue h2, isTrue h3 => isTrue (by rw [h2, h3])
    | isFalse h2, _ => isFalse (fun he => by cases he; exact h2 rfl)
    | _, isFalse h3 => isFalse (fun he => by cases he; exact h3 rfl)

end

instance : DecidableEq JValue := JValue.decEq

/-- Python truthiness (`bool(v)`): `None`, `""`, `0`, `False`, empty dict and
empty list are falsy, everything else truthy. -/
def pyTruthy : JValue → Bool
  | .null => false
  | .str s => !(s == "")
  | .int n => !(n == 0)
  | .bool b => b
  | .obj m => !m.isEmpty
  | .seq l => !l.isEmpty

mutual

/-- Python `repr(v)`.  String escaping inside `repr` of a string is not
modelled (the configuration values contain no quotes or backslashes). -/
def pyRepr : JValue → String
  | .null => "None"
  | .str s => "\x27" ++ s ++ "\x27"
  | .int n => toString n
  | .bool b => if b then "True" else "False"
  | .obj m => "\x7b" ++ pyReprFields m ++ "\x7d"
  | .seq l => "[" ++ pyReprItems l ++ "]"

def pyReprFields : List (String × JValue) → String
  | [] => ""
  | [(k, v)] => "\x27" ++ k ++ "\x27: " ++ pyRepr v
  | (k, v) :: t => "\x27" ++ k ++ "\x27: " ++ pyRepr v ++ ", " ++ pyReprFields t

def pyReprItems : List JValue → String
  | [] => ""
  | [v] => pyRepr v
  | v :: t => pyRepr v ++ ", " ++ pyReprItems t

end

/-- Python `str(v)`: identity on strings, `repr` otherwise (for `None`,
ints, bools, dicts and lists this coincides with Python's `str`). -/
def pyStr : JValue → String
  | .str s => s
  | v => pyRepr v

/-- Python whitespace as used by `str.strip()`. -/
def pySpace (c : Char) : Bool :=
  c == ' ' || c == '\t' || c == '\n' || c == '\r' || c == '\x0b' || c == '\x0c'

/-- Python `str.strip()`: drop whitespace from both ends. -/
def pyStrip (s : String) : String :=
  String.mk (((s.toList.dropWhile pySpace).reverse.dropWhile pySpace).reverse)

/-- Decimal numeral parsing: all characters must be digits and at least one
must be present. -/
def parseDigits (l : List Char) : Option Nat :=
  if l.isEmpty then none
  else if l.all Char.isDigit then
    some (l.foldl (fun acc c => acc * 10 + (c.toNat - '0'.toNat)) 0)
  else none

/-- Python `int(v)` for the values that can appear here: ints pass through,
booleans become 0/1, strings are stripped and parsed as an optionally signed
decimal numeral.  `none` marks the cases where Python raises
(`ValueError`/`TypeError`); no theorem depends on those inputs. -/
def pyToInt : JValue → Option Int
  | .int n => some n
  | .bool b => some (if b then 1 else 0)
  | .str s =>
    match (pyStrip s).toList with
    | '-' :: rest => (parseDigits rest).map (fun n => -(n : Int))
    | '+' :: rest => (parseDigits rest).map (fun n => (n : Int))
    | l => (parseDigits l).map (fun n => (n : Int))
  | _ => none

/-- First binding of `k` in an association list (Python dicts have unique
keys, so this is the dict lookup). -/
def getKey (m : List (String × JValue)) (k : String) : Option JValue :=
  (m.find? (fun p => p.1 == k)).map (·.2)

/-- Python `v.get(k)` with default `None`.  Calling `.get` on a non-dict
raises `AttributeError` in Python; the embedding yields `None` there. -/
def pyGet (v : JValue) (k : String) : JValue :=
  match v with
  | .obj m => (getKey m k).getD .null
  | _ => .null

/-- Python `v.get(k, d)` with an explicit default. -/
def pyGetD (v : JValue) (k : String) (d : JValue) : JValue :=
  match v with
  | .obj m => (getKey m k).getD d
  | _ => d

/-- Python `k in v` for a dict `v`.  (On non-dict values Python's `in` is a
substring/membership test that never matches the multi-hyphen schema keys
used below, or raises; the embedding yields `false`.) -/
def hasKey (v : JValue) (k : String) : Bool :=
  match v with
  | .obj m => m.any (fun p => p.1 == k)
  | _ => false

/-- The recurring `if not isinstance(x, list): x = [x]` coercion. -/
def asPyList : JValue → List JValue
  | .seq l => l
  | v => [v]

/-- Python `s.replace("-", ":")` for the single-character pattern used in
MAC normalization. -/
def replaceDashColon (s : String) : String :=
  String.mk (s.toList.map (fun c => if c == '-' then ':' else c))

/-- MAC normalization in `get_all_talker_stream_info`:
`mac.replace("-", ":") if mac else None`.  Truthy non-string values make
Python raise `AttributeError`; the embedding yields `None` for them. -/
def normMac : JValue → JValue
  | .str s => if s == "" then .null else .str (replaceDashColon s)
  | _ => .null

/-- The zero-equivalence test of `get_all_talker_stream_info`:
`val and str(val).strip() not in ("0", "0.0", "")`. -/
def isTimeValue (v : JValue) : Bool :=
  pyTruthy v &&
    !(pyStrip (pyStr v) == "0" || pyStrip (pyStr v) == "0.0" || pyStrip (pyStr v) == "")

/-- Whether one `config-list` entry switches `time_aware` on: it carries a
non-zero-equivalent `time-aware-offset`, or a `time-aware` block with a
non-zero-equivalent `earliest-transmit-offset` or `latest-transmit-offset`. -/
def cfgTimeSignal (cfg : JValue) : Bool :=
  (hasKey cfg "time-aware-offset" && isTimeValue (pyGet cfg "time-aware-offset")) ||
  (hasKey cfg "time-aware" &&
    (isTimeValue (pyGet (pyGet cfg "time-aware") "earliest-transmit-offset") ||
     isTimeValue (pyGet (pyGet cfg "time-aware") "latest-transmit-offset")))

/-- One talker record of `get_all_talker_stream_info` (the dict built at the
end of the talker loop; every key is always present, `None`-valued fields are
`JValue.null`). -/
structure TalkerEntry where
  interface_name : JValue
  interface_mac : JValue
  source_mac : JValue
  destination_mac : JValue
  source_ip : JValue
  destination_ip : JValue
  dscp : JValue
  ip_protocol : JValue
  source_port : JValue
  destination_port : JValue
  vlan_tag : Bool
  vlan_id : JValue
  vlan_priority : JValue
  time_aware : Bool
  time_aware_offset : JValue
  earliest_transmit_offset : JValue
  latest_transmit_offset : JValue
deriving DecidableEq

/-- The `config-list` of a talker, coerced to a list:
`talker.get("interface-configuration", {}).get("interface-list", {}).get("config-list", [])`. -/
def cfgListOf (talker : JValue) : List JValue :=
  asPyList (pyGetD (pyGet (pyGet talker "interface-configuration") "interface-list")
    "config-list" (.seq []))

/-- One iteration of the `for cfg in cfg_lists` loop in
`get_all_talker_stream_info` (lines 467-519). -/
def talkerCfgStep (e : TalkerEntry) (cfg : JValue) : TalkerEntry :=
  let e := if hasKey cfg "ieee802-mac-addresses" then
      { e with destination_mac :=
          normMac (pyGet (pyGet cfg "ieee802-mac-addresses") "destination-mac-address") }
    else e
  let e := if hasKey cfg "ieee802-vlan-tag" then
      { e with vlan_tag := true,
               vlan_id := pyGet (pyGet cfg "ieee802-vlan-tag") "vlan-id",
               vlan_priority := pyGet (pyGet cfg "ieee802-vlan-tag") "priority-code-point" }
    else e
  let e := if hasKey cfg "ipv4-tuple" then
      { e with source_ip := pyGet (pyGet cfg "ipv4-tuple") "source-ip-address",
               destination_ip := pyGet (pyGet cfg "ipv4-tuple") "destination-ip-address",
               dscp := pyGet (pyGet cfg "ipv4-tuple") "dscp",
               ip_protocol := pyGet (pyGet cfg "ipv4-tuple") "protocol",
               source_port := pyGet (pyGet cfg "ipv4-tuple") "source-port",
               destination_port := pyGet (pyGet cfg "ipv4-tuple") "destination-port" }
    else e
  let e := if hasKey cfg "time-aware-offset" && isTimeValue (pyGet cfg "time-aware-offset") then
      { e with time_aware := true, time_aware_offset := pyGet cfg "time-aware-offset" }
    else e
  let e := if hasKey cfg "time-aware" then
      { e with earliest_transmit_offset :=
                 pyGet (pyGet cfg "time-aware") "earliest-transmit-offset",
               latest_transmit_offset :=
                 pyGet (pyGet cfg "time-aware") "latest-transmit-offset",
               time_aware := e.time_aware ||
                 (isTimeValue (pyGet (pyGet cfg "time-aware") "earliest-transmit-offset") ||
                  isTimeValue (pyGet (pyGet cfg "time-aware") "latest-transmit-offset")) }
    else e
  e

/-- The talker record built for a single `<talker>` node by
`get_all_talker_stream_info` (lines 425-539). -/
def mkTalkerEntry (talker : JValue) : TalkerEntry :=
  let e0 : TalkerEntry :=
    { interface_name := pyGet (pyGet (pyGet talker "interface-configuration") "interface-list")
        "interface-name",
      interface_mac := normMac (pyGet (pyGet (pyGet talker "interface-configuration")
        "interface-list") "mac-address"),
      source_mac := normMac (pyGet (pyGet talker "end-station-interfaces") "mac-address"),
      destination_mac := .null,
      source_ip := .null, destination_ip := .null, dscp := .null,
      ip_protocol := .null, source_port := .null, destination_port := .null,
      vlan_tag := false, vlan_id := .null, vlan_priority := .null,
      time_aware := false, time_aware_offset := .null,
      earliest_transmit_offset := .null, latest_transmit_offset := .null }
  (cfgListOf talker).foldl talkerCfgStep e0

/-- Append `v` to the list stored at key `sid`, adding the key at the end if
absent: Python's `result.setdefault(sid, []).append(entry)`. -/
def appendAt (m : List (JValue × List TalkerEntry)) (sid : JValue) (v : TalkerEntry) :
    List (JValue × List TalkerEntry) :=
  match m with
  | [] => [(sid, [v])]
  | (k, vs) :: t => if k == sid then (k, vs ++ [v]) :: t else (k, vs) :: appendAt t sid v

/-- Embedding of `GE_Dictionary.get_all_talker_stream_info`: walk
documents → `cnc-config`/`domain` → `cuc` → `stream` → `talker`, coercing
each level to a list, skipping streams with a falsy `stream-id`, and
collecting one `TalkerEntry` per talker keyed by stream id. -/
def get_all_talker_stream_info (documents : List JValue) :
    List (JValue × List TalkerEntry) :=
  documents.foldl (fun result doc =>
    (asPyList (pyGetD (pyGetD doc "cnc-config" (.obj [])) "domain" (.seq []))).foldl
      (fun result domain =>
        (asPyList (pyGetD domain "cuc" (.seq []))).foldl (fun result cuc =>
          (asPyList (pyGetD cuc "stream" (.seq []))).foldl (fun result stream =>
            let stream_id := pyGet stream "stream-id"
            if pyTruthy stream_id = false then result
            else
              (asPyList (pyGetD stream "talker" (.seq []))).foldl (fun result talker =>
                appendAt result stream_id (mkTalkerEntry talker)) result)
            result) result) result) []

/-- Embedding of `get_vlan_tagged_time_aware_talker_info`: keep, per stream,
the talkers with `vlan_tag` and `time_aware` both true; drop streams whose
filtered list is empty. -/
def get_vlan_tagged_time_aware_talker_info (m : List (JValue × List TalkerEntry)) :
    List (JValue × List TalkerEntry) :=
  m.filterMap (fun p =>
    let filtered := p.2.filter (fun t => t.vlan_tag && t.time_aware)
    if filtered.isEmpty then none else some (p.1, filtered))

/-- Embedding of `get_vlan_tagged_non_time_aware_talker_info`: keep, per
stream, the talkers with `vlan_tag` true and `time_aware` false; drop streams
whose filtered list is empty. -/
def get_vlan_tagged_non_time_aware_talker_info (m : List (JValue × List TalkerEntry)) :
    List (JValue × List TalkerEntry) :=
  m.filterMap (fun p =>
    let filtered := p.2.filter (fun t => t.vlan_tag && !t.time_aware)
    if filtered.isEmpty then none else some (p.1, filtered))

/-- Lowercase hexadecimal digits of a natural number (`"0"` for 0). -/
def natHex (n : Nat) : String := String.mk (Nat.toDigits 16 n)

/-- Left-pad with `'0'` to width `w`. -/
def padZero (s : String) (w : Nat) : String :=
  if s.length < w then String.mk (List.replicate (w - s.length) '0') ++ s else s

/-- Python `f"{n:02X}"`: two-digit zero-padded uppercase hexadecimal (a
negative value keeps its sign and pads the digits to the remaining width). -/
def pyFormat02X (n : Int) : String :=
  if n < 0 then "-" ++ padZero (String.mk ((Nat.toDigits 16 n.natAbs).map Char.toUpper)) 1
  else padZero (String.mk ((Nat.toDigits 16 n.toNat).map Char.toUpper)) 2

/-- Python `hex(n)`: `0x`-prefixed lowercase hexadecimal. -/
def pyHexInt (n : Int) : String :=
  if n < 0 then "-0x" ++ natHex n.natAbs else "0x" ++ natHex n.toNat

/-- The `None`-to-`"0"` defaulting applied to `gate-states-value` and
`time-interval-value` in `get_gate_control_entries_formatted`. -/
def gceDefault (v : JValue) : JValue := if v == .null then .str "0" else v

/-- Formatting of a single gate-control entry (body of the loop in
`get_gate_control_entries_formatted`, lines 314-330).  `none` marks the one
case where Python raises: `int()` on an unparseable `gate-states-value`. -/
def formatGateControlEntry (entry : JValue) : Option String :=
  let op := pyGet entry "operation-name"
  let state_val := gceDefault (pyGet entry "gate-states-value")
  let interval := gceDefault (pyGet entry "time-interval-value")
  if op == .str "sched:set-gate-states" then
    (pyToInt state_val).map
      (fun n => "sched-entry S " ++ pyFormat02X n ++ " " ++ pyStr interval)
  else
    some ("sched-entry ? " ++ pyStr state_val ++ " " ++ pyStr interval)

/-- Embedding of `get_gate_control_entries_formatted` over an already
extracted entry list; a raise anywhere aborts the whole call (`none`). -/
def get_gate_control_entries_formatted (entries : List JValue) : Option (List String) :=
  entries.mapM formatGateControlEntry

/-- The IANA protocol numbers used by `tc_command.py` via the `socket`
module. -/
def IPPROTO_TCP : Int := 6

def IPPROTO_UDP : Int := 17

def IPPROTO_SCTP : Int := 132

/-- Embedding of `tc_command._is_port_in_range`. -/
def _is_port_in_range (port : Int) : Bool :=
  decide (1 ≤ port) && decide (port ≤ 65535)

/-- Embedding of `tc_command._get_ip_protocol_and_ports_filter_configuration`
(lines 513-566): protocol 65535 and protocol numbers above 0xFF yield the
empty fragment; TCP/UDP/SCTP get their lowercase names with port matching
enabled; any other number at most 0xFF is rendered as `hex(n)` with port
matching disabled; ports are appended only when in range 1-65535. -/
def _get_ip_protocol_and_ports_filter_configuration
    (protocol_number destination_port source_port : Int) : String :=
  if protocol_number == 65535 then ""
  else if !(protocol_number == IPPROTO_TCP) && !(protocol_number == IPPROTO_UDP) &&
      !(protocol_number == IPPROTO_SCTP) && decide (255 < protocol_number) then ""
  else
    let pn : String × Bool :=
      if protocol_number == IPPROTO_TCP then ("tcp", true)
      else if protocol_number == IPPROTO_UDP then ("udp", true)
      else if protocol_number == IPPROTO_SCTP then ("sctp", true)
      else (pyHexInt protocol_number, false)
    let protocol_port_cmd := if pn.1 == "" then "" else "ip_proto " ++ pn.1 ++ " "
    let protocol_port_cmd :=
      if _is_port_in_range destination_port && pn.2 then
        protocol_port_cmd ++ "dst_port " ++ toString destination_port ++ " "
      else protocol_port_cmd
    let protocol_port_cmd :=
      if _is_port_in_range source_port && pn.2 then
        protocol_port_cmd ++ "src_port " ++ toString source_port ++ " "
      else protocol_port_cmd
    protocol_port_cmd

/-- String repetition, for the default `map` string `"0 1 2 3" + " 0" * 12`. -/
def strRepeat (s : String) (n : Nat) : String := String.join (List.replicate n s)

/-- The taprio command string built for one interface by
`create_tc_qdisc_gcl_command` (`" ".join(cmd_lines)`). -/
def taprioCmd (iface map_str queues_str handle_id flags : String) (num_tc : Nat)
    (base_time txtime_delay : Int) (gcl : List String) : String :=
  String.intercalate " " ([
    "tc qdisc replace dev " ++ iface ++ " parent root handle " ++ handle_id ++ " taprio",
    " num_tc " ++ toString num_tc ++ " map " ++ map_str,
    " queues " ++ queues_str,
    " base-time " ++ toString base_time ]
    ++ gcl.map (fun entry => " " ++ entry ++ " ")
    ++ ["flags " ++ flags, "txtime-delay " ++ toString txtime_delay ++ " ",
        "clockid CLOCK_TAI "])

/-- The per-queue ETF command string built by `create_tc_qdisc_gcl_command`
for traffic class `q`. -/
def etfCmd (iface handle_id : String) (delta : Int) (q : Nat) : String :=
  "tc qdisc replace dev " ++ iface ++ " parent " ++ handle_id ++ ":" ++ toString q ++
    " etf skip_sock_check offload delta " ++ toString delta ++ " clockid CLOCK_TAI "

/-- Embedding of `create_tc_qdisc_gcl_command` (lines 47-132).  `base_time`
is the already-resolved base time (the Python default `time.time_ns()` is
environmental); the three `Option String` arguments model the `None`
defaults of `map_str`, `queues_str` and `handle_id`. -/
def create_tc_qdisc_gcl_command (interfaces gcl : List String) (num_tc : Nat)
    (base_time : Int) (map_str queues_str handle_id : Option String)
    (flags : String) (txtime_delay delta : Int) : List String :=
  let map_str := map_str.getD ("0 1 2 3" ++ strRepeat " 0" 12)
  let queues_str := queues_str.getD "1@0 1@1 1@2 1@3"
  let handle_id := handle_id.getD "100"
  interfaces.foldl (fun commands iface =>
    let commands := commands ++
      [taprioCmd iface map_str queues_str handle_id flags num_tc base_time txtime_delay gcl]
    commands ++ (List.range' 1 num_tc).map (fun q => etfCmd iface handle_id delta q)) []

/-- The `tc qdisc add dev <iface> clsact` command emitted before an
interface's first filter when no clsact qdisc was detected. -/
def clsactCmd (iface : JValue) : String := "tc qdisc add dev " ++ pyStr iface ++ " clsact"

/-- The flower filter command built for one talker (identical construction
in both generator entry points, lines 653-673 and 745-762). -/
def mkFilterCmd (talker : TalkerEntry) : String :=
  let proto_num : Int :=
    if talker.ip_protocol == .null then 65535 else (pyToInt talker.ip_protocol).getD 65535
  let dst_port_num : Int :=
    if talker.destination_port == .null then 0 else (pyToInt talker.destination_port).getD 0
  let src_port_num : Int :=
    if talker.source_port == .null then 0 else (pyToInt talker.source_port).getD 0
  let layer3 :=
    _get_ip_protocol_and_ports_filter_configuration proto_num dst_port_num src_port_num
  let cmd := "tc filter add dev " ++ pyStr talker.interface_name ++
    " egress protocol ip flower "
  let cmd := if pyTruthy talker.source_mac then
      cmd ++ "src_mac " ++ pyStr talker.source_mac ++ " " else cmd
  let cmd := if pyTruthy talker.destination_mac then
      cmd ++ "dst_mac " ++ pyStr talker.destination_mac ++ " " else cmd
  let cmd := if pyTruthy talker.source_ip then
      cmd ++ "src_ip " ++ pyStr talker.source_ip ++ " " else cmd
  let cmd := if pyTruthy talker.destination_ip then
      cmd ++ "dst_ip " ++ pyStr talker.destination_ip ++ " " else cmd
  let cmd := if !(layer3 == "") then cmd ++ layer3 ++ " " else cmd
  let cmd := cmd ++ "action vlan push id " ++ pyStr talker.vlan_id ++
    " protocol 802.1Q priority " ++ pyStr talker.vlan_priority ++
    " pipe action skbedit priority " ++ pyStr talker.vlan_priority
  pyStrip cmd

/-- One iteration of the talker loop in
`create_tc_filter_commands_for_time_aware_talkers`: state is the command
list and the `processed_ifaces` set (insertion-ordered list).  The clsact
probe `_clsact_exists` runs `tc qdisc show` and a substring match; it is
modelled as the boolean oracle `clsact_exists`. -/
def taStep (clsact_exists : JValue → Bool) (st : List String × List JValue)
    (talker : TalkerEntry) : List String × List JValue :=
  if pyTruthy talker.interface_name = false then st
  else
    let step1 : List String × List JValue :=
      if st.2.contains talker.interface_name then st
      else ((if clsact_exists talker.interface_name then st.1
             else st.1 ++ [clsactCmd talker.interface_name]),
            st.2 ++ [talker.interface_name])
    (step1.1 ++ [mkFilterCmd talker], step1.2)

/-- Embedding of `create_tc_filter_commands_for_time_aware_talkers`
(lines 621-675). -/
def create_tc_filter_commands_for_time_aware_talkers (clsact_exists : JValue → Bool)
    (info : List (JValue × List TalkerEntry)) : List String :=
  (info.foldl (fun st p => p.2.foldl (taStep clsact_exists) st) ([], [])).1

/-- Embedding of `create_tc_filter_commands_for_non_time_aware_talkers`
(lines 678-764): one filter command per talker with a truthy interface name,
and no clsact handling of any kind. -/
def create_tc_filter_commands_for_non_time_aware_talkers
    (info : List (JValue × List TalkerEntry)) : List String :=
  info.foldl (fun commands p => p.2.foldl (fun commands talker =>
    if pyTruthy talker.interface_name = false then commands
    else commands ++ [mkFilterCmd talker]) commands) []

/-- Abstract event emitted by the time-aware filter generator: a clsact
creation for an interface, or a flower filter command for a talker on an
interface. -/
inductive TcEv where
  | clsactAdd (iface : JValue)
  | filt (iface : JValue) (cmd : String)
deriving DecidableEq

/-- Rendering of an abstract event as the command string the generator
appends. -/
def renderEv : TcEv → String
  | .clsactAdd i => clsactCmd i
  | .filt _ c => c

/-- Event trace of the time-aware generator over a flattened talker list,
threading the `processed_ifaces` set. -/
def taGo (clsact_exists : JValue → Bool) : List TalkerEntry → List JValue → List TcEv
  | [], _ => []
  | t :: ts, processed =>
    if pyTruthy t.interface_name = false then taGo clsact_exists ts processed
    else if processed.contains t.interface_name then
      .filt t.interface_name (mkFilterCmd t) :: taGo clsact_exists ts processed
    else if clsact_exists t.interface_name then
      .filt t.interface_name (mkFilterCmd t) ::
        taGo clsact_exists ts (processed ++ [t.interface_name])
    else
      .clsactAdd t.interface_name :: .filt t.interface_name (mkFilterCmd t) ::
        taGo clsact_exists ts (processed ++ [t.interface_name])

/-- The `processed_ifaces` set after the time-aware generator has handled a
talker list. -/
def taProcessed : List TalkerEntry → List JValue → List JValue
  | [], processed => processed
  | t :: ts, processed =>
    if pyTruthy t.interface_name = false then taProcessed ts processed
    else if processed.contains t.interface_name then taProcessed ts processed
    else taProcessed ts (processed ++ [t.interface_name])

/-- An XML element as handed to `_element_to_dict`: tag (possibly in Clark
notation), attributes, child elements in document order, and text content
(`""` when the element has no text). -/
inductive XElem where
  | mk (tag : String) (attrib : List (String × String)) (children : List XElem) (text : String)

def XElem.tag : XElem → String
  | .mk t _ _ _ => t

def XElem.attrib : XElem → List (String × String)
  | .mk _ a _ _ => a

def XElem.children : XElem → List XElem
  | .mk _ _ c _ => c

def XElem.text : XElem → String
  | .mk _ _ _ t => t

/-- Embedding of `XMLParser._strip_namespace`:
`tag.split("}")[-1] if "}" in tag else tag`. -/
def stripNs (tag : String) : String :=
  if tag.toList.contains '\x7d' then
    String.mk ((tag.toList.reverse.takeWhile (fun c => !(c == '\x7d'))).reverse)
  else tag

/-- Python dict assignment `m[k] = v`: replace in place, append if absent. -/
def setKey (m : List (String × JValue)) (k : String) (v : JValue) : List (String × JValue) :=
  match m with
  | [] => [(k, v)]
  | (k', v') :: t => if k' == k then (k, v) :: t else (k', v') :: setKey t k v

/-- The repeated-child folding of `_element_to_dict` (lines 57-62): a new
tag is appended as a bare value, a second occurrence wraps the existing
value into a list, further occurrences append to that list. -/
def addChild (node : List (String × JValue)) (ct : String) (cv : JValue) :
    List (String × JValue) :=
  match getKey node ct with
  | none => node ++ [(ct, cv)]
  | some (.seq l) => setKey node ct (.seq (l ++ [cv]))
  | some old => setKey node ct (.seq [old, cv])

mutual

/-- The value part of `_element_to_dict(element)` (the conversion returns
the single-pair dict `{stripped tag: value}`; this is the value): attributes
become `@`-prefixed entries, children are folded in document order, a
childless attributeless element collapses to its trimmed text, non-empty
text next to children/attributes is kept under `#text`, and an empty node
becomes `None`. -/
def xmlValue : XElem → JValue
  | .mk _ attrib children text =>
    let node := attrib.map (fun p => ("@" ++ p.1, JValue.str p.2))
    let node := xmlFold children node
    let t := pyStrip text
    if !(t == "") && children.isEmpty && attrib.isEmpty then .str t
    else
      let node := if !(t == "") then setKey node "#text" (.str t) else node
      if node.isEmpty then .null else .obj node

/-- The `for child in children` loop of `_element_to_dict`. -/
def xmlFold : List XElem → List (String × JValue) → List (String × JValue)
  | [], node => node
  | c :: cs, node => xmlFold cs (addChild node (stripNs c.tag) (xmlValue c))

end

/-- A whole converted element: `_element_to_dict` returns the one-key dict
mapping the stripped tag to the converted value. -/
def elementToDoc (e : XElem) : JValue := .obj [(stripNs e.tag, xmlValue e)]

/-- The format parser selected by `UniversalParser` (the `.yml` and `.yaml`
extensions share the one YAML parser instance). -/
inductive PFormat where
  | xml
  | yaml
deriving DecidableEq

/-- The format parsers as the Universal Parser sees them: a function from
file path to parse outcome (file reading and raw-text parsing folded into
the function; an `Except.error` is a raised `ParseError`). -/
structure ParserEnv where
  xmlParse : String → Except String (List JValue)
  yamlParse : String → Except String (List JValue)

/-- Mutable state of a `UniversalParser` instance together with the cached
document lists of its two (persistent) format parser instances. -/
structure UPState where
  current_fmt : Option PFormat
  xmlDocs : List JValue
  yamlDocs : List JValue
  documents : List JValue
deriving DecidableEq

/-- Character-wise lowercasing (Python `str.lower()` on ASCII names). -/
def lowerStr (s : String) : String := String.mk (s.toList.map Char.toLower)

/-- Extension extraction `os.path.splitext(file_path.lower())[1]`: the part
of the basename from its last dot, where leading dots of the basename do not
start an extension. -/
def extOf (path : String) : String :=
  let base := ((lowerStr path).toList.reverse.takeWhile (fun c => !(c == '/'))).reverse
  let rest := base.drop (base.takeWhile (fun c => c == '.')).length
  if rest.contains '.' then
    String.mk ('.' :: (base.reverse.takeWhile (fun c => !(c == '.'))).reverse)
  else ""

/-- Substring test (Python `pat in s`). -/
def strContainsSub (s pat : String) : Bool :=
  s.toList.tails.any (fun t => pat.toList.isPrefixOf t)

mutual

/-- Recursive marker-domain search of the format parsers
(`_contains_chronos`): in a dict, each key and each value's `str()` form is
searched (case-insensitively) for the literal `"chronos-domain"` before
recursing; lists recurse into their items; scalars at top level match
nothing. -/
def containsChronos : JValue → Bool
  | .obj m => chronosFields m
  | .seq l => chronosItems l
  | _ => false

def chronosFields : List (String × JValue) → Bool
  | [] => false
  | (k, v) :: t =>
    strContainsSub (lowerStr k) "chronos-domain" ||
    strContainsSub (lowerStr (pyStr v)) "chronos-domain" ||
    containsChronos v || chronosFields t

def chronosItems : List JValue → Bool
  | [] => false
  | v :: t => containsChronos v || chronosItems t

end

namespace UP

/-- Embedding of `UniversalParser.parse` (lines 54-69): dispatch on the
lowercased extension, record the selected parser, and replace the cached
documents.  When the inner parser raises, `current_fmt` has already been
reassigned and the raising parser has already reset its own document cache
to `[]` (both parsers clear `self.documents` before reading). -/
def parse (env : ParserEnv) (st : UPState) (path : String) :
    UPState × Except String (List JValue) :=
  let ext := extOf path
  if ext == ".xml" then
    match env.xmlParse path with
    | .ok docs =>
      ({ current_fmt := some .xml, xmlDocs := docs,
         yamlDocs := st.yamlDocs, documents := docs }, .ok docs)
    | .error e => ({ st with current_fmt := some .xml, xmlDocs := [] }, .error e)
  else if ext == ".yaml" || ext == ".yml" then
    match env.yamlParse path with
    | .ok docs =>
      ({ current_fmt := some .yaml, yamlDocs := docs,
         xmlDocs := st.xmlDocs, documents := docs }, .ok docs)
    | .error e => ({ st with current_fmt := some .yaml, yamlDocs := [] }, .error e)
  else (st, .error ("Unsupported file extension: " ++ ext))

/-- Embedding of `UniversalParser.refresh` (lines 89-95): literally
`return self.parse(file_path)`. -/
def refresh (env : ParserEnv) (st : UPState) (path : String) :
    UPState × Except String (List JValue) :=
  parse env st path

/-- Embedding of `UniversalParser.has_chronos_domain` (lines 79-87):
`False` when no parser has been selected, otherwise the selected format
parser's own marker search over its own cached documents. -/
def has_chronos_domain (st : UPState) : Bool :=
  match st.current_fmt with
  | none => false
  | some .xml => st.xmlDocs.any containsChronos
  | some .yaml => st.yamlDocs.any containsChronos

/-- Embedding of `UniversalParser.get_dictionary_helper` (lines 97-105):
a `GE_Dictionary` over the cached documents when the marker domain is
present, `None` otherwise (the helper is represented by its document list). -/
def get_dictionary_helper (st : UPState) : Option (List JValue) :=
  if has_chronos_domain st then some st.documents else none

/-- A freshly constructed `UniversalParser` (`__init__`). -/
def initial : UPState :=
  { current_fmt := none, xmlDocs := [], yamlDocs := [], documents := [] }

end UP

/-- Helper: `hex(n)` is never the empty string. -/
theorem pyHexInt_ne_empty (n : Int) : pyHexInt n ≠ "" := by
  have h : 0 < (pyHexInt n).length := by
    unfold pyHexInt
    split
    · rw [String.length_append]
      have h3 : ("-0x" : String).length = 3 := rfl
      omega
    · rw [String.length_append]
      have h3 : ("0x" : String).length = 2 := rfl
      omega
  intro he
  rw [he] at h
  simp at h

/-- C3: the protocol/port match fragment is empty for protocol 65535 and for
any other protocol above 255; TCP/UDP/SCTP (6/17/132) are rendered as their
lowercase names with a `dst_port`/`src_port` clause appended exactly when the
port lies in 1..65535; any other protocol at most 255 is rendered as `hex(p)`
with no port clauses; concretely, protocol 65535 always gives `""` and
protocol 6 with destination port 8080 and source port 0 gives exactly
`"ip_proto tcp dst_port 8080 "`. -/
theorem C3_protocol_port_fragment :
    (∀ p d s : Int, 0 ≤ p → p ≤ 65535 →
      ((p = 65535 → _get_ip_protocol_and_ports_filter_configuration p d s = "") ∧
       (p = 6 → _get_ip_protocol_and_ports_filter_configuration p d s =
          "ip_proto tcp " ++
          (if _is_port_in_range d then "dst_port " ++ toString d ++ " " else "") ++
          (if _is_port_in_range s then "src_port " ++ toString s ++ " " else "")) ∧
       (p = 17 → _get_ip_protocol_and_ports_filter_configuration p d s =
          "ip_proto udp " ++
          (if _is_port_in_range d then "dst_port " ++ toString d ++ " " else "") ++
          (if _is_port_in_range s then "src_port " ++ toString s ++ " " else "")) ∧
       (p = 132 → _get_ip_protocol_and_ports_filter_configuration p d s =
          "ip_proto sctp " ++
          (if _is_port_in_range d then "dst_port " ++ toString d ++ " " else "") ++
          (if _is_port_in_range s then "src_port " ++ toString s ++ " " else "")) ∧
       (p ≠ 65535 → p ≠ 6 → p ≠ 17 → p ≠ 132 → p ≤ 255 →
          _get_ip_protocol_and_ports_filter_configuration p d s =
            "ip_proto " ++ pyHexInt p ++ " ") ∧
       (p ≠ 65535 → p ≠ 6 → p ≠ 17 → p ≠ 132 → 255 < p →
          _get_ip_protocol_and_ports_filter_configuration p d s = ""))) ∧
    (∀ d s : Int, _get_ip_protocol_and_ports_filter_configuration 65535 d s = "") ∧
    _get_ip_protocol_and_ports_filter_configuration 6 8080 0 =
      "ip_proto tcp dst_port 8080 " := by
  refine ⟨?_, ?_, by rfl⟩
  · intro p d s _ _
    refine ⟨?_, ?_, ?_, ?_, ?_, ?_⟩
    · rintro rfl
      rfl
    · rintro rfl
      unfold _get_ip_protocol_and_ports_filter_configuration
      norm_num [IPPROTO_TCP, IPPROTO_UDP, IPPROTO_SCTP]
      cases h1 : _is_port_in_range d <;> cases h2 : _is_port_in_range s <;>
        (try simp only [h1, h2]) <;>
        (try norm_num) <;>
        (try simp only [← String.append_assoc, String.append_empty]) <;>
        rfl
    · rintro rfl
      unfold _get_ip_protocol_and_ports_filter_configuration
      norm_num [IPPROTO_TCP, IPPROTO_UDP, IPPROTO_SCTP]
      cases h1 : _is_port_in_range d <;> cases h2 : _is_port_in_range s <;>
        (try simp only [h1, h2]) <;>
        (try norm_num) <;>
        (try simp only [← String.append_assoc, String.append_empty]) <;>
        rfl
    · rintro rfl
      unfold _get_ip_protocol_and_ports_filter_configuration
      norm_num [IPPROTO_TCP, IPPROTO_UDP, IPPROTO_SCTP]
      cases h1 : _is_port_in_range d <;> cases h2 : _is_port_in_range s <;>
        (try simp only [h1, h2]) <;>
        (try norm_num) <;>
        (try simp only [← String.append_assoc, String.append_empty]) <;>
        rfl
    · intro h65 h6 h17 h132 hle
      unfold _get_ip_protocol_and_ports_filter_configuration
      have b65 : (p == (65535 : Int)) = false := by simp [h65]
      have b6 : (p == IPPROTO_TCP) = false := by simp [IPPROTO_TCP, h6]
      have b17 : (p == IPPROTO_UDP) = false := by simp [IPPROTO_UDP, h17]
      have b132 : (p == IPPROTO_SCTP) = false := by simp [IPPROTO_SCTP, h132]
      have bgt : decide ((255 : Int) < p) = false := by simp; omega
      have hne : (pyHexInt p == "") = false := by
        rw [beq_eq_false_iff_ne]
        exact pyHexInt_ne_empty p
      simp [b65, b6, b17, b132, bgt, hne]
    · intro h65 h6 h17 h132 hgt
      unfold _get_ip_protocol_and_ports_filter_configuration
      have b65 : (p == (65535 : Int)) = false := by simp [h65]
      have b6 : (p == IPPROTO_TCP) = false := by simp [IPPROTO_TCP, h6]
      have b17 : (p == IPPROTO_UDP) = false := by simp [IPPROTO_UDP, h17]
      have b132 : (p == IPPROTO_SCTP) = false := by simp [IPPROTO_SCTP, h132]
      have bgt : decide ((255 : Int) < p) = true := by simp; omega
      simp [b65, b6, b17, b132, bgt]
  · intro d s
    rfl

/-- Witness for C3: instantiating the general statement at protocol 6,
destination port 8080, source port 0. -/
theorem C3_witness :
    _get_ip_protocol_and_ports_filter_configuration 6 8080 0 =
      "ip_proto tcp dst_port 8080 " := by
  have h := (C3_protocol_port_fragment.1 6 8080 0 (by norm_num) (by norm_num)).2.1 rfl
  rw [h]
  rfl
/-- C8: `refresh` is literally a full re-parse — it equals `parse` on every
environment, state and path (same returned documents, same resulting cached
state) — and the outcome component of `parse` does not depend on the prior
parser state, so `refresh` on an unchanged file returns a document set
structurally equal to the original `parse` result. -/
theorem C8_refresh_is_full_reparse :
    (∀ (env : ParserEnv) (st : UPState) (path : String),
      UP.refresh env st path = UP.parse env st path) ∧
    (∀ (env : ParserEnv) (st₁ st₂ : UPState) (path : String),
      (UP.parse env st₁ path).2 = (UP.parse env st₂ path).2) := by
  constructor
  · intro env st path
    rfl
  · intro env st₁ st₂ path
    unfold UP.parse
    dsimp only
    split_ifs with h1 h2
    · cases env.xmlParse path <;> rfl
    · cases env.yamlParse path <;> rfl
    · rfl

/-- States of a `UniversalParser` on which no parse call has yet succeeded:
the freshly constructed state, and any state reached from such a state by a
`parse` (or `refresh`, which is the same function) call that raised — an
unsupported extension or a format-parser `ParseError` — under any file
contents.  After a failed dispatch the selected parser is already recorded
(`current_fmt` is set before the inner parse runs), so these states are not
limited to `current_fmt = none`. -/
inductive NoSuccessfulParse : UPState → Prop where
  | init : NoSuccessfulParse UP.initial
  | failedStep (env : ParserEnv) (path : String) (st : UPState) (e : String) :
      NoSuccessfulParse st → (UP.parse env st path).2 = .error e →
      NoSuccessfulParse (UP.parse env st path).1

/-- Helper: while no parse has succeeded, both format parsers' document
caches are empty (each parser clears `self.documents` before reading, so a
raising parse leaves it empty). -/
theorem noSuccess_docs_empty :
    ∀ st : UPState, NoSuccessfulParse st → st.xmlDocs = [] ∧ st.yamlDocs = [] := by
  intro st h
  induction h with
  | init => exact ⟨rfl, rfl⟩
  | failedStep env path st e _ herr ih =>
    unfold UP.parse at herr ⊢
    dsimp only at herr ⊢
    split_ifs at herr ⊢ with h1 h2
    · cases hx : env.xmlParse path with
      | ok docs =>
        rw [hx] at herr
        dsimp only at herr
        cases herr
      | error e2 =>
        exact ⟨rfl, ih.2⟩
    · cases hy : env.yamlParse path with
      | ok docs =>
        rw [hy] at herr
        dsimp only at herr
        cases herr
      | error e2 =>
        exact ⟨ih.1, rfl⟩
    · exact ih

/-- C10: on a `UniversalParser` on which no parse call has yet succeeded —
freshly constructed, or after any number of failed `parse`/`refresh`
attempts (including ones that already selected a format parser) —
`has_chronos_domain` returns `false` and `get_dictionary_helper` returns
`None`; both are total functions of the state, so neither raises. -/
theorem C10_no_success_negative :
    ∀ st : UPState, NoSuccessfulParse st →
      UP.has_chronos_domain st = false ∧ UP.get_dictionary_helper st = none := by
  intro st h
  obtain ⟨hx, hy⟩ := noSuccess_docs_empty st h
  have h1 : UP.has_chronos_domain st = false := by
    unfold UP.has_chronos_domain
    cases hc : st.current_fmt with
    | none => rfl
    | some fmt =>
      cases fmt with
      | xml => rw [hx]; rfl
      | yaml => rw [hy]; rfl
  refine ⟨h1, ?_⟩
  unfold UP.get_dictionary_helper
  rw [h1]
  rfl

/-- The environment used by the C10 witness: every file fails to parse. -/
def c10env : ParserEnv :=
  { xmlParse := fun _ => .error "malformed XML",
    yamlParse := fun _ => .error "malformed YAML" }

/-- Witness for C10 at a state where an XML parse was attempted and failed:
the XML parser is already selected, no parse has succeeded, and both
queries return their negative results; the fresh state is covered too. -/
theorem C10_witness :
    (UP.parse c10env UP.initial "config.xml").1.current_fmt = some .xml ∧
    UP.has_chronos_domain (UP.parse c10env UP.initial "config.xml").1 = false ∧
    UP.get_dictionary_helper (UP.parse c10env UP.initial "config.xml").1 = none ∧
    UP.has_chronos_domain UP.initial = false ∧
    UP.get_dictionary_helper UP.initial = none := by
  have hfail : NoSuccessfulParse (UP.parse c10env UP.initial "config.xml").1 :=
    NoSuccessfulParse.failedStep c10env "config.xml" UP.initial "malformed XML"
      NoSuccessfulParse.init (by rfl)
  have h1 := C10_no_success_negative _ hfail
  have h0 := C10_no_success_negative UP.initial NoSuccessfulParse.init
  exact ⟨by rfl, h1.1, h1.2, h0.1, h0.2⟩

/-- Helper: a successful `Option`-monadic map preserves the list length. -/
theorem mapM_option_length {α β : Type} (f : α → Option β) :
    ∀ (l : List α) (out : List β), l.mapM f = some out → out.length = l.length := by
  intro l
  induction l with
  | nil =>
    intro out h
    rw [List.mapM_nil] at h
    cases h
    rfl
  | cons a t ih =>
    intro out h
    rw [List.mapM_cons] at h
    cases hfa : f a with
    | none => rw [hfa] at h; cases h
    | some b =>
      rw [hfa] at h
      cases hmt : t.mapM f with
      | none => rw [hmt] at h; cases h
      | some bs =>
        rw [hmt] at h
        cases h
        simp [ih bs hmt]

/-- C9: for a `sched:set-gate-states` entry, an absent (or `None`)
`gate-states-value` is defaulted to `"0"` and rendered as `"00"`, and an
absent `time-interval-value` is rendered as `"0"`; the entry is still
formatted (no skip, no raise). -/
theorem C9_missing_fields_default_to_zero :
    ∀ entry : JValue,
      pyGet entry "operation-name" = .str "sched:set-gate-states" →
      ((pyGet entry "gate-states-value" = .null →
        formatGateControlEntry entry =
          some ("sched-entry S 00 " ++
            pyStr (gceDefault (pyGet entry "time-interval-value")))) ∧
       (pyGet entry "gate-states-value" = .null →
        pyGet entry "time-interval-value" = .null →
        formatGateControlEntry entry = some "sched-entry S 00 0")) := by
  intro e hop
  constructor
  · intro hgsv
    unfold formatGateControlEntry
    rw [hop, hgsv]
    rfl
  · intro hgsv htiv
    unfold formatGateControlEntry
    rw [hop, hgsv, htiv]
    rfl

/-- Witness for C9: an entry carrying only the operation name formats to
`"sched-entry S 00 0"`. -/
theorem C9_witness :
    formatGateControlEntry
        (.obj [("operation-name", .str "sched:set-gate-states")]) =
      some "sched-entry S 00 0" :=
  (C9_missing_fields_default_to_zero
    (.obj [("operation-name", .str "sched:set-gate-states")]) rfl).2 rfl rfl

/-- C2: formatting never drops an entry (a successful run has one output
line per entry); a `sched:set-gate-states` entry whose (defaulted)
gate-states value converts to the integer `n` is rendered as
`"sched-entry S <n as two-digit zero-padded uppercase hex> <interval>"`; any
other operation name is rendered as `"sched-entry ? <raw value> <interval>"`
with the values passed through `str()` unconverted; concretely, gate states
15 with interval 500000 yields `"sched-entry S 0F 500000"` and an
unrecognized operation with value 7 and interval 1000 yields
`"sched-entry ? 7 1000"`. -/
theorem C2_formatted_entries :
    (∀ (entries : List JValue) (out : List String),
      get_gate_control_entries_formatted entries = some out →
      out.length = entries.length) ∧
    (∀ (entry : JValue) (n : Int),
      pyGet entry "operation-name" = .str "sched:set-gate-states" →
      pyToInt (gceDefault (pyGet entry "gate-states-value")) = some n →
      formatGateControlEntry entry =
        some ("sched-entry S " ++ pyFormat02X n ++ " " ++
          pyStr (gceDefault (pyGet entry "time-interval-value")))) ∧
    (∀ entry : JValue,
      ¬ pyGet entry "operation-name" = .str "sched:set-gate-states" →
      formatGateControlEntry entry =
        some ("sched-entry ? " ++ pyStr (gceDefault (pyGet entry "gate-states-value")) ++
          " " ++ pyStr (gceDefault (pyGet entry "time-interval-value")))) ∧
    formatGateControlEntry (.obj [("operation-name", .str "sched:set-gate-states"),
        ("gate-states-value", .str "15"), ("time-interval-value", .str "500000")]) =
      some "sched-entry S 0F 500000" ∧
    formatGateControlEntry (.obj [("operation-name", .str "unknown-op"),
        ("gate-states-value", .str "7"), ("time-interval-value", .str "1000")]) =
      some "sched-entry ? 7 1000" := by
  refine ⟨?_, ?_, ?_, rfl, rfl⟩
  · exact fun entries out h => mapM_option_length formatGateControlEntry entries out h
  · intro e n hop hn
    unfold formatGateControlEntry
    dsimp only
    rw [hop, hn]
    rfl
  · intro e hop
    unfold formatGateControlEntry
    have hb : (pyGet e "operation-name" == JValue.str "sched:set-gate-states") = false :=
      beq_eq_false_iff_ne.mpr hop
    dsimp only
    rw [hb]
    rfl

/-- Witness for C2: instantiating the general statements at the two concrete
entries of the claim. -/
theorem C2_witness :
    get_gate_control_entries_formatted
        [.obj [("operation-name", .str "sched:set-gate-states"),
          ("gate-states-value", .str "15"), ("time-interval-value", .str "500000")],
         .obj [("operation-name", .str "unknown-op"),
          ("gate-states-value", .str "7"), ("time-interval-value", .str "1000")]] =
      some ["sched-entry S 0F 500000", "sched-entry ? 7 1000"] ∧
    (["sched-entry S 0F 500000", "sched-entry ? 7 1000"] : List String).length =
      ([.obj [("operation-name", .str "sched:set-gate-states"),
          ("gate-states-value", .str "15"), ("time-interval-value", .str "500000")],
        .obj [("operation-name", .str "unknown-op"),
          ("gate-states-value", .str "7"), ("time-interval-value", .str "1000")]] :
        List JValue).length ∧
    formatGateControlEntry (.obj [("operation-name", .str "sched:set-gate-states"),
        ("gate-states-value", .str "15"), ("time-interval-value", .str "500000")]) =
      some ("sched-entry S " ++ pyFormat02X 15 ++ " " ++ pyStr (.str "500000")) ∧
    formatGateControlEntry (.obj [("operation-name", .str "unknown-op"),
        ("gate-states-value", .str "7"), ("time-interval-value", .str "1000")]) =
      some ("sched-entry ? " ++ pyStr (.str "7") ++ " " ++ pyStr (.str "1000")) := by
  refine ⟨rfl, ?_, ?_, ?_⟩
  · have h := C2_formatted_entries.1
      [.obj [("operation-name", .str "sched:set-gate-states"),
        ("gate-states-value", .str "15"), ("time-interval-value", .str "500000")],
       .obj [("operation-name", .str "unknown-op"),
        ("gate-states-value", .str "7"), ("time-interval-value", .str "1000")]]
      ["sched-entry S 0F 500000", "sched-entry ? 7 1000"] rfl
    exact h
  · exact C2_formatted_entries.2.1
      (.obj [("operation-name", .str "sched:set-gate-states"),
        ("gate-states-value", .str "15"), ("time-interval-value", .str "500000")])
      15 rfl rfl
  · exact C2_formatted_entries.2.2.1
      (.obj [("operation-name", .str "unknown-op"),
        ("gate-states-value", .str "7"), ("time-interval-value", .str "1000")])
      (by decide)
/-- Helper: a fold that appends one taprio block (head command plus trailing
per-queue commands) per element is the flat concatenation of the blocks. -/
theorem foldl_blocks_eq_flatMap (t : String → String) (e : String → List String) :
    ∀ (l : List String) (acc : List String),
      l.foldl (fun commands iface => (commands ++ [t iface]) ++ e iface) acc =
        acc ++ l.flatMap (fun iface => t iface :: e iface) := by
  intro l
  induction l with
  | nil => intro acc; simp
  | cons a tl ih =>
    intro acc
    rw [List.foldl_cons, ih]
    simp [List.append_assoc]

/-- C6: for every interface in order, `create_tc_qdisc_gcl_command` emits
exactly one taprio command followed by exactly `num_tc` per-queue ETF
commands for traffic classes 1..num_tc, each ETF command referencing the
same handle id as the taprio command; concretely, one interface with a
one-entry GCL and `num_tc = 4` yields one taprio command followed by 4 ETF
commands for classes 1..4. -/
theorem C6_taprio_then_etf :
    (∀ (interfaces gcl : List String) (num_tc : Nat) (base_time : Int)
        (map_str queues_str handle_id : Option String) (flags : String)
        (txtime_delay delta : Int),
      create_tc_qdisc_gcl_command interfaces gcl num_tc base_time map_str queues_str
          handle_id flags txtime_delay delta =
        interfaces.flatMap (fun iface =>
          taprioCmd iface (map_str.getD ("0 1 2 3" ++ strRepeat " 0" 12))
              (queues_str.getD "1@0 1@1 1@2 1@3") (handle_id.getD "100") flags num_tc
              base_time txtime_delay gcl ::
            (List.range' 1 num_tc).map (fun q =>
              etfCmd iface (handle_id.getD "100") delta q))) ∧
    create_tc_qdisc_gcl_command ["enp170s0"] ["sched-entry S 0F 500000"] 4 0 none none
        none "0x1" 200000 175000 =
      ["tc qdisc replace dev enp170s0 parent root handle 100 taprio  num_tc 4 map 0 1 2 3 0 0 0 0 0 0 0 0 0 0 0 0  queues 1@0 1@1 1@2 1@3  base-time 0  sched-entry S 0F 500000  flags 0x1 txtime-delay 200000  clockid CLOCK_TAI ",
       "tc qdisc replace dev enp170s0 parent 100:1 etf skip_sock_check offload delta 175000 clockid CLOCK_TAI ",
       "tc qdisc replace dev enp170s0 parent 100:2 etf skip_sock_check offload delta 175000 clockid CLOCK_TAI ",
       "tc qdisc replace dev enp170s0 parent 100:3 etf skip_sock_check offload delta 175000 clockid CLOCK_TAI ",
       "tc qdisc replace dev enp170s0 parent 100:4 etf skip_sock_check offload delta 175000 clockid CLOCK_TAI "] := by
  constructor
  · intro interfaces gcl num_tc base_time map_str queues_str handle_id flags td delta
    unfold create_tc_qdisc_gcl_command
    have h := foldl_blocks_eq_flatMap
      (fun iface => taprioCmd iface (map_str.getD ("0 1 2 3" ++ strRepeat " 0" 12))
        (queues_str.getD "1@0 1@1 1@2 1@3") (handle_id.getD "100") flags num_tc
        base_time td gcl)
      (fun iface => (List.range' 1 num_tc).map (fun q =>
        etfCmd iface (handle_id.getD "100") delta q))
      interfaces []
    rw [List.nil_append] at h
    exact h
  · rfl
/-- C5: the two VLAN×time-aware filters partition any talker map with no
overlap: every talker kept by the time-aware filter has `vlan_tag` and
`time_aware` both true, every talker kept by the non-time-aware filter has
`vlan_tag` true and `time_aware` false, no talker record is in both results,
no stream of either result carries an empty talker list, and a stream id is
present in a result exactly when some of its talkers match that filter. -/
theorem C5_partition_no_overlap :
    ∀ m : List (JValue × List TalkerEntry),
      (∀ p ∈ get_vlan_tagged_time_aware_talker_info m,
        p.2 ≠ [] ∧ ∀ t ∈ p.2, t.vlan_tag = true ∧ t.time_aware = true) ∧
      (∀ p ∈ get_vlan_tagged_non_time_aware_talker_info m,
        p.2 ≠ [] ∧ ∀ t ∈ p.2, t.vlan_tag = true ∧ t.time_aware = false) ∧
      (∀ p q t, p ∈ get_vlan_tagged_time_aware_talker_info m →
        q ∈ get_vlan_tagged_non_time_aware_talker_info m → t ∈ p.2 → t ∉ q.2) ∧
      (∀ sid : JValue,
        (∃ ts, (sid, ts) ∈ get_vlan_tagged_time_aware_talker_info m) ↔
        (∃ ts, (sid, ts) ∈ m ∧ ∃ t ∈ ts, t.vlan_tag = true ∧ t.time_aware = true)) ∧
      (∀ sid : JValue,
        (∃ ts, (sid, ts) ∈ get_vlan_tagged_non_time_aware_talker_info m) ↔
        (∃ ts, (sid, ts) ∈ m ∧ ∃ t ∈ ts, t.vlan_tag = true ∧ t.time_aware = false)) := by
  intro m
  refine ⟨?_, ?_, ?_, ?_, ?_⟩
  · intro p hp
    unfold get_vlan_tagged_time_aware_talker_info at hp
    rw [List.mem_filterMap] at hp
    obtain ⟨a, _, ha⟩ := hp
    dsimp only at ha
    split_ifs at ha with hemp
    cases ha
    constructor
    · intro hnil
      dsimp only at hnil
      rw [hnil] at hemp
      simp at hemp
    · intro t ht
      dsimp only at ht
      rw [List.mem_filter] at ht
      have := ht.2
      simp only [Bool.and_eq_true] at this
      exact this
  · intro p hp
    unfold get_vlan_tagged_non_time_aware_talker_info at hp
    rw [List.mem_filterMap] at hp
    obtain ⟨a, _, ha⟩ := hp
    dsimp only at ha
    split_ifs at ha with hemp
    cases ha
    constructor
    · intro hnil
      dsimp only at hnil
      rw [hnil] at hemp
      simp at hemp
    · intro t ht
      dsimp only at ht
      rw [List.mem_filter] at ht
      have := ht.2
      simp only [Bool.and_eq_true, Bool.not_eq_true'] at this
      exact this
  · intro p q t hp hq htp htq
    unfold get_vlan_tagged_time_aware_talker_info at hp
    rw [List.mem_filterMap] at hp
    obtain ⟨a, _, ha⟩ := hp
    dsimp only at ha
    split_ifs at ha with hemp
    cases ha
    dsimp only at htp
    rw [List.mem_filter] at htp
    unfold get_vlan_tagged_non_time_aware_talker_info at hq
    rw [List.mem_filterMap] at hq
    obtain ⟨b, _, hb⟩ := hq
    dsimp only at hb
    split_ifs at hb with hempb
    cases hb
    dsimp only at htq
    rw [List.mem_filter] at htq
    have h1 := htp.2
    have h2 := htq.2
    simp only [Bool.and_eq_true, Bool.not_eq_true'] at h1 h2
    rw [h1.2] at h2
    cases h2.2
  · intro sid
    constructor
    · rintro ⟨ts, hts⟩
      unfold get_vlan_tagged_time_aware_talker_info at hts
      rw [List.mem_filterMap] at hts
      obtain ⟨a, ham, ha⟩ := hts
      dsimp only at ha
      split_ifs at ha with hemp
      simp only [Option.some.injEq, Prod.mk.injEq] at ha
      have hne : a.2.filter (fun t => t.vlan_tag && t.time_aware) ≠ [] := by
        intro h0
        rw [h0] at hemp
        simp at hemp
      obtain ⟨t, ht⟩ := List.exists_mem_of_ne_nil _ hne
      rw [List.mem_filter] at ht
      refine ⟨a.2, ?_, t, ht.1, ?_⟩
      · rw [← ha.1]
        simpa using ham
      · have := ht.2
        simp only [Bool.and_eq_true] at this
        exact this
    · rintro ⟨ts, hmem, t, htm, h1, h2⟩
      refine ⟨ts.filter (fun t => t.vlan_tag && t.time_aware), ?_⟩
      unfold get_vlan_tagged_time_aware_talker_info
      rw [List.mem_filterMap]
      refine ⟨(sid, ts), hmem, ?_⟩
      dsimp only
      rw [if_neg]
      intro h0
      have : t ∈ ts.filter (fun t => t.vlan_tag && t.time_aware) := by
        rw [List.mem_filter]
        exact ⟨htm, by simp [h1, h2]⟩
      rw [List.isEmpty_iff] at h0
      rw [h0] at this
      cases this
  · intro sid
    constructor
    · rintro ⟨ts, hts⟩
      unfold get_vlan_tagged_non_time_aware_talker_info at hts
      rw [List.mem_filterMap] at hts
      obtain ⟨a, ham, ha⟩ := hts
      dsimp only at ha
      split_ifs at ha with hemp
      simp only [Option.some.injEq, Prod.mk.injEq] at ha
      have hne : a.2.filter (fun t => t.vlan_tag && !t.time_aware) ≠ [] := by
        intro h0
        rw [h0] at hemp
        simp at hemp
      obtain ⟨t, ht⟩ := List.exists_mem_of_ne_nil _ hne
      rw [List.mem_filter] at ht
      refine ⟨a.2, ?_, t, ht.1, ?_⟩
      · rw [← ha.1]
        simpa using ham
      · have := ht.2
        simp only [Bool.and_eq_true, Bool.not_eq_true'] at this
        exact this
    · rintro ⟨ts, hmem, t, htm, h1, h2⟩
      refine ⟨ts.filter (fun t => t.vlan_tag && !t.time_aware), ?_⟩
      unfold get_vlan_tagged_non_time_aware_talker_info
      rw [List.mem_filterMap]
      refine ⟨(sid, ts), hmem, ?_⟩
      dsimp only
      rw [if_neg]
      intro h0
      have : t ∈ ts.filter (fun t => t.vlan_tag && !t.time_aware) := by
        rw [List.mem_filter]
        exact ⟨htm, by simp [h1, h2]⟩
      rw [List.isEmpty_iff] at h0
      rw [h0] at this
      cases this
/-- A VLAN-tagged time-aware talker used by the C5 witness. -/
def tkVlanTA : TalkerEntry :=
  { interface_name := .str "eth0", interface_mac := .null, source_mac := .null,
    destination_mac := .null, source_ip := .null, destination_ip := .null, dscp := .null,
    ip_protocol := .null, source_port := .null, destination_port := .null,
    vlan_tag := true, vlan_id := .str "22", vlan_priority := .str "3",
    time_aware := true, time_aware_offset := .str "78600",
    earliest_transmit_offset := .null, latest_transmit_offset := .null }

/-- A VLAN-tagged non-time-aware talker used by the C5 witness. -/
def tkVlanNTA : TalkerEntry :=
  { interface_name := .str "eth1", interface_mac := .null, source_mac := .null,
    destination_mac := .null, source_ip := .null, destination_ip := .null, dscp := .null,
    ip_protocol := .null, source_port := .null, destination_port := .null,
    vlan_tag := true, vlan_id := .str "33", vlan_priority := .str "4",
    time_aware := false, time_aware_offset := .null,
    earliest_transmit_offset := .null, latest_transmit_offset := .null }

/-- Witness for C5 on a one-stream map holding one talker of each class. -/
theorem C5_witness :
    (∀ t ∈ [tkVlanTA], t.vlan_tag = true ∧ t.time_aware = true) ∧
    tkVlanTA ∉ [tkVlanNTA] ∧
    (∃ ts, (JValue.str "s", ts) ∈
      get_vlan_tagged_time_aware_talker_info [(.str "s", [tkVlanTA, tkVlanNTA])]) := by
  have h := C5_partition_no_overlap [(.str "s", [tkVlanTA, tkVlanNTA])]
  refine ⟨?_, ?_, ?_⟩
  · exact (h.1 (.str "s", [tkVlanTA]) (by decide)).2
  · exact fun hmem =>
      h.2.2.1 (.str "s", [tkVlanTA]) (.str "s", [tkVlanNTA]) tkVlanTA
        (by decide) (by decide) (by decide) hmem
  · exact (h.2.2.2.1 (.str "s")).mpr
      ⟨[tkVlanTA, tkVlanNTA], by decide, tkVlanTA, by decide, rfl, rfl⟩
/-- Helper: one `config-list` iteration disturbs `time_aware` exactly by
or-ing in that entry's time signal. -/
theorem talkerCfgStep_time_aware (e : TalkerEntry) (cfg : JValue) :
    (talkerCfgStep e cfg).time_aware = (e.time_aware || cfgTimeSignal cfg) := by
  unfold talkerCfgStep cfgTimeSignal
  dsimp only
  split_ifs with h1 h2 h3 h4 h5 <;>
    simp_all <;>
    cases e.time_aware <;> simp_all
/-- Helper: over a whole `config-list`, `time_aware` is the disjunction of
the per-entry signals. -/
theorem foldl_cfg_time_aware :
    ∀ (cfgs : List JValue) (e : TalkerEntry),
      (cfgs.foldl talkerCfgStep e).time_aware = (e.time_aware || cfgs.any cfgTimeSignal) := by
  intro cfgs
  induction cfgs with
  | nil => intro e; simp
  | cons c t ih =>
    intro e
    rw [List.foldl_cons, ih, talkerCfgStep_time_aware]
    simp [Bool.or_assoc]

/-- Helper: generic fold invariant preservation. -/
theorem foldl_inv {M α : Type} (Inv : M → Prop) (f : M → α → M) :
    ∀ (l : List α) (m : M), (∀ mm a, Inv mm → Inv (f mm a)) → Inv m → Inv (l.foldl f m) := by
  intro l
  induction l with
  | nil => intro m _ hm; exact hm
  | cons a t ih =>
    intro m hf hm
    rw [List.foldl_cons]
    exact ih (f m a) hf (hf m a hm)

/-- Helper: `setdefault`-append keeps a per-record invariant. -/
theorem appendAt_inv (P : TalkerEntry → Prop) :
    ∀ (m : List (JValue × List TalkerEntry)) (sid : JValue) (v : TalkerEntry),
      (∀ p ∈ m, ∀ e ∈ p.2, P e) → P v →
      ∀ p ∈ appendAt m sid v, ∀ e ∈ p.2, P e := by
  intro m
  induction m with
  | nil =>
    intro sid v _ hv p hp e he
    rw [appendAt] at hp
    have hp2 := List.mem_singleton.mp hp
    subst hp2
    have he2 := List.mem_singleton.mp he
    subst he2
    exact hv
  | cons a t ih =>
    intro sid v hm hv p hp e he
    rw [appendAt] at hp
    split_ifs at hp with hk
    · rcases List.mem_cons.mp hp with hp2 | hp2
      · subst hp2
        rcases List.mem_append.mp he with h | h
        · exact hm a (List.mem_cons_self a t) e h
        · have hev := List.mem_singleton.mp h
          subst hev
          exact hv
      · exact hm p (List.mem_cons_of_mem a hp2) e he
    · rcases List.mem_cons.mp hp with hp2 | hp2
      · subst hp2
        exact hm a (List.mem_cons_self a t) e he
      · exact ih sid v (fun q hq => hm q (List.mem_cons_of_mem a hq)) hv p hp2 e he

/-- The record-provenance invariant threaded through
`get_all_talker_stream_info`: every stored record comes from `mkTalkerEntry`. -/
def entryFromTalker (mm : List (JValue × List TalkerEntry)) : Prop :=
  ∀ q ∈ mm, ∀ e ∈ q.2, ∃ t : JValue, e = mkTalkerEntry t

/-- C1: a talker record's `time_aware` flag is true exactly when some entry
of its `config-list` carries a non-zero-equivalent `time-aware-offset` or a
`time-aware` block with a non-zero-equivalent earliest/latest transmit
offset; and every record produced by `get_all_talker_stream_info` is the
record `mkTalkerEntry` builds from some talker node, so the equivalence
holds for every produced record. -/
theorem C1_time_aware_iff :
    (∀ talker : JValue,
      (mkTalkerEntry talker).time_aware = true ↔
        ∃ cfg ∈ cfgListOf talker, cfgTimeSignal cfg = true) ∧
    (∀ (documents : List JValue) (p : JValue × List TalkerEntry),
      p ∈ get_all_talker_stream_info documents →
      ∀ e ∈ p.2, ∃ talker : JValue, e = mkTalkerEntry talker) := by
  constructor
  · intro talker
    unfold mkTalkerEntry
    rw [foldl_cfg_time_aware]
    simp [List.any_eq_true]
  · intro documents p hp e he
    have main : entryFromTalker (get_all_talker_stream_info documents) := by
      unfold get_all_talker_stream_info
      apply foldl_inv entryFromTalker _ documents [] ?_ ?_
      · intro mm doc hmm
        apply foldl_inv entryFromTalker _ _ mm ?_ hmm
        intro m2 domain hm2
        apply foldl_inv entryFromTalker _ _ m2 ?_ hm2
        intro m3 cuc hm3
        apply foldl_inv entryFromTalker _ _ m3 ?_ hm3
        intro m4 stream hm4
        dsimp only
        split_ifs with hsid
        · exact hm4
        · apply foldl_inv entryFromTalker _ _ m4 ?_ hm4
          intro m5 talker hm5
          exact appendAt_inv _ m5 _ _ hm5 ⟨talker, rfl⟩
      · intro q hq
        cases hq
    exact main p hp e he
/-- Helper: folding over a map's talker lists one stream at a time equals
folding over the flattened talker list. -/
theorem foldl_nested_eq_flat {σ α β : Type} (f : σ → β → σ) :
    ∀ (l : List (α × List β)) (s : σ),
      l.foldl (fun st p => p.2.foldl f st) s = (l.flatMap (fun p => p.2)).foldl f s := by
  intro l
  induction l with
  | nil => intro s; rfl
  | cons a t ih =>
    intro s
    rw [List.foldl_cons, List.flatMap_cons, List.foldl_append, ih]

/-- Helper: the time-aware generator's fold is the rendering of its event
trace, with the processed-interface set evolving as `taProcessed` says. -/
theorem taStep_fold_eq_trace (oracle : JValue → Bool) :
    ∀ (ts : List TalkerEntry) (cs : List String) (ps : List JValue),
      ts.foldl (taStep oracle) (cs, ps) =
        (cs ++ (taGo oracle ts ps).map renderEv, taProcessed ts ps) := by
  intro ts
  induction ts with
  | nil => intro cs ps; simp [taGo, taProcessed]
  | cons t ts ih =>
    intro cs ps
    rw [List.foldl_cons]
    by_cases ht : pyTruthy t.interface_name = false
    · rw [show taStep oracle (cs, ps) t = (cs, ps) by unfold taStep; rw [if_pos ht]]
      rw [ih cs ps]
      rw [show taGo oracle (t :: ts) ps = taGo oracle ts ps by
        simp only [taGo]; rw [if_pos ht]]
      rw [show taProcessed (t :: ts) ps = taProcessed ts ps by
        simp only [taProcessed]; rw [if_pos ht]]
    · by_cases hc : ps.contains t.interface_name
      · rw [show taStep oracle (cs, ps) t = (cs ++ [mkFilterCmd t], ps) by
          unfold taStep; rw [if_neg ht]; dsimp only; rw [if_pos hc]]
        rw [ih (cs ++ [mkFilterCmd t]) ps]
        rw [show taGo oracle (t :: ts) ps =
            TcEv.filt t.interface_name (mkFilterCmd t) :: taGo oracle ts ps by
          simp only [taGo]; rw [if_neg ht, if_pos hc]]
        rw [show taProcessed (t :: ts) ps = taProcessed ts ps by
          simp only [taProcessed]; rw [if_neg ht, if_pos hc]]
        simp [renderEv]
      · by_cases ho : oracle t.interface_name
        · rw [show taStep oracle (cs, ps) t =
              (cs ++ [mkFilterCmd t], ps ++ [t.interface_name]) by
            unfold taStep; rw [if_neg ht]; dsimp only; rw [if_neg hc, if_pos ho]]
          rw [ih (cs ++ [mkFilterCmd t]) (ps ++ [t.interface_name])]
          rw [show taGo oracle (t :: ts) ps =
              TcEv.filt t.interface_name (mkFilterCmd t) ::
                taGo oracle ts (ps ++ [t.interface_name]) by
            simp only [taGo]; rw [if_neg ht, if_neg hc, if_pos ho]]
          rw [show taProcessed (t :: ts) ps = taProcessed ts (ps ++ [t.interface_name]) by
            simp only [taProcessed]; rw [if_neg ht, if_neg hc]]
          simp [renderEv]
        · rw [show taStep oracle (cs, ps) t =
              (cs ++ [clsactCmd t.interface_name, mkFilterCmd t],
               ps ++ [t.interface_name]) by
            unfold taStep; rw [if_neg ht]; dsimp only; rw [if_neg hc, if_neg ho]; simp]
          rw [ih (cs ++ [clsactCmd t.interface_name, mkFilterCmd t])
            (ps ++ [t.interface_name])]
          rw [show taGo oracle (t :: ts) ps =
              TcEv.clsactAdd t.interface_name ::
                TcEv.filt t.interface_name (mkFilterCmd t) ::
                  taGo oracle ts (ps ++ [t.interface_name]) by
            simp only [taGo]; rw [if_neg ht, if_neg hc, if_neg ho]]
          rw [show taProcessed (t :: ts) ps = taProcessed ts (ps ++ [t.interface_name]) by
            simp only [taProcessed]; rw [if_neg ht, if_neg hc]]
          simp [renderEv]
/-- Event test: is this the clsact-creation event for interface `i`? -/
def evIsClsactFor (i : JValue) : TcEv → Bool
  | .clsactAdd j => j == i
  | .filt _ _ => false

/-- Event test: does this event concern interface `i` (clsact creation or a
filter command on it)? -/
def evForIface (i : JValue) : TcEv → Bool
  | .clsactAdd j => j == i
  | .filt j _ => j == i

/-- Helper: the clsact event for `i` appears at most once in the trace, and
never when `i` is already processed or its clsact qdisc was detected. -/
theorem taGo_clsact_count (oracle : JValue → Bool) (i : JValue) :
    ∀ (ts : List TalkerEntry) (ps : List JValue),
      ((i ∈ ps ∨ oracle i = true) →
        (taGo oracle ts ps).countP (evIsClsactFor i) = 0) ∧
      (taGo oracle ts ps).countP (evIsClsactFor i) ≤ 1 := by
  intro ts
  induction ts with
  | nil => intro ps; simp [taGo]
  | cons t ts ih =>
    intro ps
    by_cases ht : pyTruthy t.interface_name = false
    · rw [show taGo oracle (t :: ts) ps = taGo oracle ts ps by
        simp only [taGo]; rw [if_pos ht]]
      exact ih ps
    · by_cases hc : t.interface_name ∈ ps
      · rw [show taGo oracle (t :: ts) ps =
            TcEv.filt t.interface_name (mkFilterCmd t) :: taGo oracle ts ps by
          simp only [taGo]; rw [if_neg ht, if_pos (by simp [hc])]]
        rw [List.countP_cons]
        simp only [evIsClsactFor, if_neg (by simp : ¬ (false = true)), Nat.add_zero]
        exact ih ps
      · by_cases ho : oracle t.interface_name = true
        · rw [show taGo oracle (t :: ts) ps =
              TcEv.filt t.interface_name (mkFilterCmd t) ::
                taGo oracle ts (ps ++ [t.interface_name]) by
            simp only [taGo]; rw [if_neg ht, if_neg (by simp [hc]), if_pos ho]]
          rw [List.countP_cons]
          simp only [evIsClsactFor, if_neg (by simp : ¬ (false = true)), Nat.add_zero]
          constructor
          · intro hyp
            apply (ih (ps ++ [t.interface_name])).1
            rcases hyp with h | h
            · exact Or.inl (List.mem_append_left _ h)
            · exact Or.inr h
          · exact (ih (ps ++ [t.interface_name])).2
        · rw [show taGo oracle (t :: ts) ps =
              TcEv.clsactAdd t.interface_name ::
                TcEv.filt t.interface_name (mkFilterCmd t) ::
                  taGo oracle ts (ps ++ [t.interface_name]) by
            simp only [taGo]; rw [if_neg ht, if_neg (by simp [hc]), if_neg ho]]
          rw [List.countP_cons, List.countP_cons]
          simp only [evIsClsactFor, if_neg (by simp : ¬ (false = true))]
          by_cases hji : t.interface_name = i
          · subst hji
            constructor
            · intro hyp
              rcases hyp with h | h
              · exact absurd h hc
              · exact absurd h ho
            · have hz := (ih (ps ++ [t.interface_name])).1
                (Or.inl (List.mem_append_right _ (List.mem_singleton_self _)))
              rw [hz]
              simp
          · have hb : (t.interface_name == i) = false := beq_eq_false_iff_ne.mpr hji
            simp only [hb]
            simp only [if_neg (by simp : ¬ (false = true)), Nat.add_zero]
            constructor
            · intro hyp
              apply (ih (ps ++ [t.interface_name])).1
              rcases hyp with h | h
              · exact Or.inl (List.mem_append_left _ h)
              · exact Or.inr h
            · exact (ih (ps ++ [t.interface_name])).2
/-- Helper: if some talker has a truthy interface equal to `i`, `i` is not
yet processed and no clsact qdisc is detected on it, the trace contains the
clsact event for `i`. -/
theorem taGo_clsact_mem (oracle : JValue → Bool) (i : JValue) :
    ∀ (ts : List TalkerEntry) (ps : List JValue),
      oracle i = false → i ∉ ps →
      (∃ t ∈ ts, pyTruthy t.interface_name = true ∧ t.interface_name = i) →
      TcEv.clsactAdd i ∈ taGo oracle ts ps := by
  intro ts
  induction ts with
  | nil =>
    intro ps _ _ hex
    obtain ⟨t, htm, _⟩ := hex
    cases htm
  | cons t ts ih =>
    intro ps ho hps hex
    by_cases hmatch : pyTruthy t.interface_name = true ∧ t.interface_name = i
    · obtain ⟨htr, hti⟩ := hmatch
      rw [show taGo oracle (t :: ts) ps =
          TcEv.clsactAdd t.interface_name ::
            TcEv.filt t.interface_name (mkFilterCmd t) ::
              taGo oracle ts (ps ++ [t.interface_name]) by
        simp only [taGo]
        rw [if_neg (by rw [htr]; simp), if_neg (by rw [hti]; simp [hps]),
          if_neg (by rw [hti]; simp [ho])]]
      rw [hti]
      exact List.mem_cons_self _ _
    · have hex' : ∃ t ∈ ts, pyTruthy t.interface_name = true ∧ t.interface_name = i := by
        obtain ⟨u, hum, hu⟩ := hex
        rcases List.mem_cons.mp hum with h | h
        · subst h
          exact absurd hu hmatch
        · exact ⟨u, h, hu⟩
      by_cases ht : pyTruthy t.interface_name = false
      · rw [show taGo oracle (t :: ts) ps = taGo oracle ts ps by
          simp only [taGo]; rw [if_pos ht]]
        exact ih ps ho hps hex'
      · have hti : ¬ t.interface_name = i := by
          intro h
          exact hmatch ⟨by revert ht; cases pyTruthy t.interface_name <;> simp, h⟩
        by_cases hc : t.interface_name ∈ ps
        · rw [show taGo oracle (t :: ts) ps =
              TcEv.filt t.interface_name (mkFilterCmd t) :: taGo oracle ts ps by
            simp only [taGo]; rw [if_neg ht, if_pos (by simp [hc])]]
          exact List.mem_cons_of_mem _ (ih ps ho hps hex')
        · have hps' : i ∉ ps ++ [t.interface_name] := by
            intro h
            rcases List.mem_append.mp h with h | h
            · exact hps h
            · exact hti (List.mem_singleton.mp h).symm
          by_cases hoj : oracle t.interface_name = true
          · rw [show taGo oracle (t :: ts) ps =
                TcEv.filt t.interface_name (mkFilterCmd t) ::
                  taGo oracle ts (ps ++ [t.interface_name]) by
              simp only [taGo]; rw [if_neg ht, if_neg (by simp [hc]), if_pos hoj]]
            exact List.mem_cons_of_mem _ (ih _ ho hps' hex')
          · rw [show taGo oracle (t :: ts) ps =
                TcEv.clsactAdd t.interface_name ::
                  TcEv.filt t.interface_name (mkFilterCmd t) ::
                    taGo oracle ts (ps ++ [t.interface_name]) by
              simp only [taGo]; rw [if_neg ht, if_neg (by simp [hc]), if_neg hoj]]
            exact List.mem_cons_of_mem _
              (List.mem_cons_of_mem _ (ih _ ho hps' hex'))

/-- Helper: when no clsact qdisc is detected on `i` and `i` is unprocessed,
the first event concerning interface `i` in the trace — if any — is the
clsact creation, so the clsact command precedes every filter command for
that interface. -/
theorem taGo_first_event_clsact (oracle : JValue → Bool) (i : JValue) :
    ∀ (ts : List TalkerEntry) (ps : List JValue),
      oracle i = false → i ∉ ps →
      (taGo oracle ts ps).find? (evForIface i) = none ∨
      (taGo oracle ts ps).find? (evForIface i) = some (.clsactAdd i) := by
  intro ts
  induction ts with
  | nil => intro ps _ _; left; simp [taGo]
  | cons t ts ih =>
    intro ps ho hps
    by_cases ht : pyTruthy t.interface_name = false
    · rw [show taGo oracle (t :: ts) ps = taGo oracle ts ps by
        simp only [taGo]; rw [if_pos ht]]
      exact ih ps ho hps
    · by_cases hc : t.interface_name ∈ ps
      · have hti : ¬ t.interface_name = i := fun h => hps (h ▸ hc)
        rw [show taGo oracle (t :: ts) ps =
            TcEv.filt t.interface_name (mkFilterCmd t) :: taGo oracle ts ps by
          simp only [taGo]; rw [if_neg ht, if_pos (by simp [hc])]]
        rw [List.find?_cons_of_neg _ (by
          simp only [evForIface]
          rw [beq_eq_false_iff_ne.mpr hti]
          simp)]
        exact ih ps ho hps
      · by_cases hti : t.interface_name = i
        · have hoj : ¬ oracle t.interface_name = true := by rw [hti, ho]; simp
          rw [show taGo oracle (t :: ts) ps =
              TcEv.clsactAdd t.interface_name ::
                TcEv.filt t.interface_name (mkFilterCmd t) ::
                  taGo oracle ts (ps ++ [t.interface_name]) by
            simp only [taGo]; rw [if_neg ht, if_neg (by simp [hc]), if_neg hoj]]
          right
          rw [List.find?_cons_of_pos _ (by simp [evForIface, hti])]
          rw [hti]
        · have hps' : i ∉ ps ++ [t.interface_name] := by
            intro h
            rcases List.mem_append.mp h with h | h
            · exact hps h
            · exact hti (List.mem_singleton.mp h).symm
          have hnev : ∀ c, ¬ evForIface i (TcEv.filt t.interface_name c) = true := by
            intro c
            simp only [evForIface]
            rw [beq_eq_false_iff_ne.mpr hti]
            simp
          by_cases hoj : oracle t.interface_name = true
          · rw [show taGo oracle (t :: ts) ps =
                TcEv.filt t.interface_name (mkFilterCmd t) ::
                  taGo oracle ts (ps ++ [t.interface_name]) by
              simp only [taGo]; rw [if_neg ht, if_neg (by simp [hc]), if_pos hoj]]
            rw [List.find?_cons_of_neg _ (hnev _)]
            exact ih _ ho hps'
          · rw [show taGo oracle (t :: ts) ps =
                TcEv.clsactAdd t.interface_name ::
                  TcEv.filt t.interface_name (mkFilterCmd t) ::
                    taGo oracle ts (ps ++ [t.interface_name]) by
              simp only [taGo]; rw [if_neg ht, if_neg (by simp [hc]), if_neg hoj]]
            rw [List.find?_cons_of_neg _ (by
              simp only [evForIface]
              rw [beq_eq_false_iff_ne.mpr hti]
              simp)]
            rw [List.find?_cons_of_neg _ (hnev _)]
            exact ih _ ho hps'
/-- Helper: the non-time-aware generator's inner fold appends one filter
command per talker with a truthy interface name. -/
theorem ntaStep_fold :
    ∀ (ts : List TalkerEntry) (cs : List String),
      ts.foldl (fun commands talker =>
        if pyTruthy talker.interface_name = false then commands
        else commands ++ [mkFilterCmd talker]) cs =
      cs ++ (ts.filter (fun t => pyTruthy t.interface_name)).map mkFilterCmd := by
  intro ts
  induction ts with
  | nil => intro cs; simp
  | cons t ts ih =>
    intro cs
    rw [List.foldl_cons]
    by_cases ht : pyTruthy t.interface_name = false
    · rw [if_pos ht, ih]
      rw [List.filter_cons_of_neg (by simp [ht])]
    · rw [if_neg ht, ih]
      rw [List.filter_cons_of_pos (by revert ht; cases pyTruthy t.interface_name <;> simp)]
      simp

/-- C4 (amended): the time-aware generator's output is the rendering of its
event trace; in that trace, per interface, the clsact-creation event occurs
at most once, it occurs whenever some talker uses the interface and no
clsact qdisc is detected on it, and in that case the first event concerning
the interface is the clsact creation (so the clsact command is emitted
before the interface's first filter command); the non-time-aware generator
performs no clsact handling at all — its output is exactly one filter
command per talker with a truthy interface name. -/
theorem C4_clsact_setup :
    (∀ (oracle : JValue → Bool) (info : List (JValue × List TalkerEntry)),
      create_tc_filter_commands_for_time_aware_talkers oracle info =
        (taGo oracle (info.flatMap (fun p => p.2)) []).map renderEv) ∧
    (∀ (oracle : JValue → Bool) (ts : List TalkerEntry) (i : JValue),
      (taGo oracle ts []).countP (evIsClsactFor i) ≤ 1 ∧
      (oracle i = true → (taGo oracle ts []).countP (evIsClsactFor i) = 0) ∧
      (oracle i = false →
        (∃ t ∈ ts, pyTruthy t.interface_name = true ∧ t.interface_name = i) →
        TcEv.clsactAdd i ∈ taGo oracle ts []) ∧
      (oracle i = false →
        (taGo oracle ts []).find? (evForIface i) = none ∨
        (taGo oracle ts []).find? (evForIface i) = some (.clsactAdd i))) ∧
    (∀ info : List (JValue × List TalkerEntry),
      create_tc_filter_commands_for_non_time_aware_talkers info =
        ((info.flatMap (fun p => p.2)).filter
          (fun t => pyTruthy t.interface_name)).map mkFilterCmd) := by
  refine ⟨?_, ?_, ?_⟩
  · intro oracle info
    unfold create_tc_filter_commands_for_time_aware_talkers
    rw [foldl_nested_eq_flat (taStep oracle) info ([], [])]
    rw [taStep_fold_eq_trace oracle (info.flatMap (fun p => p.2)) [] []]
    rfl
  · intro oracle ts i
    refine ⟨(taGo_clsact_count oracle i ts []).2, ?_, ?_, ?_⟩
    · intro ho
      exact (taGo_clsact_count oracle i ts []).1 (Or.inr ho)
    · intro ho hex
      exact taGo_clsact_mem oracle i ts [] ho (by simp) hex
    · intro ho
      exact taGo_first_event_clsact oracle i ts [] ho (by simp)
  · intro info
    unfold create_tc_filter_commands_for_non_time_aware_talkers
    rw [foldl_nested_eq_flat _ info []]
    exact ntaStep_fold (info.flatMap (fun p => p.2)) []

/-- The talker used by the C4 counterexample and witness (the repository's
own minimal-fixture talker: interface `eth0`, VLAN id 300, priority 2). -/
def c4talker : TalkerEntry :=
  { interface_name := .str "eth0", interface_mac := .null, source_mac := .null,
    destination_mac := .null, source_ip := .null, destination_ip := .null, dscp := .null,
    ip_protocol := .null, source_port := .null, destination_port := .null,
    vlan_tag := true, vlan_id := .int 300, vlan_priority := .int 2,
    time_aware := false, time_aware_offset := .null,
    earliest_transmit_offset := .null, latest_transmit_offset := .null }

/-- Counterexample to C4 as stated: on a map with one VLAN-tagged talker on
`eth0`, the non-time-aware generator emits exactly the one filter command
and no `tc qdisc add dev eth0 clsact` — it has no clsact handling, whatever
the state of the interface. -/
theorem C4_counterexample :
    create_tc_filter_commands_for_non_time_aware_talkers
        [(.str "streamZ", [c4talker])] =
      ["tc filter add dev eth0 egress protocol ip flower action vlan push id 300 protocol 802.1Q priority 2 pipe action skbedit priority 2"] ∧
    "tc qdisc add dev eth0 clsact" ∉
      create_tc_filter_commands_for_non_time_aware_talkers
        [(.str "streamZ", [c4talker])] := by
  constructor
  · rfl
  · decide

/-- Witness for C4 (amended) with the clsact probe reporting no clsact
anywhere: the generator output renders the trace, the clsact event for
`eth0` is present exactly once, and it is the first `eth0` event. -/
theorem C4_witness :
    create_tc_filter_commands_for_time_aware_talkers (fun _ => false)
        [(.str "s", [c4talker])] =
      (taGo (fun _ => false) [c4talker] []).map renderEv ∧
    (taGo (fun _ => false) [c4talker] []).countP (evIsClsactFor (.str "eth0")) ≤ 1 ∧
    TcEv.clsactAdd (.str "eth0") ∈ taGo (fun _ => false) [c4talker] [] ∧
    ((taGo (fun _ => false) [c4talker] []).find? (evForIface (.str "eth0")) = none ∨
     (taGo (fun _ => false) [c4talker] []).find? (evForIface (.str "eth0")) =
       some (.clsactAdd (.str "eth0"))) := by
  refine ⟨?_, ?_, ?_, ?_⟩
  · exact C4_clsact_setup.1 (fun _ => false) [(.str "s", [c4talker])]
  · exact (C4_clsact_setup.2.1 (fun _ => false) [c4talker] (.str "eth0")).1
  · exact (C4_clsact_setup.2.1 (fun _ => false) [c4talker] (.str "eth0")).2.2.1 rfl
      ⟨c4talker, by decide, by decide, rfl⟩
  · exact (C4_clsact_setup.2.1 (fun _ => false) [c4talker] (.str "eth0")).2.2.2 rfl
/-- Fields of a mapping node (empty for non-mappings). -/
def objFields : JValue → List (String × JValue)
  | .obj m => m
  | _ => []

/-- One folding step at a fixed key: what `addChild` does to the value
stored under the child's tag. -/
def combineStep (o : Option JValue) (v : JValue) : Option JValue :=
  match o with
  | none => some v
  | some (.seq l) => some (.seq (l ++ [v]))
  | some w => some (.seq [w, v])

/-- Iterated folding steps for a list of same-tag child values. -/
def combineVals (o : Option JValue) : List JValue → Option JValue
  | [] => o
  | v :: vs => combineVals (combineStep o v) vs

/-- Helper: a converted element value is never a sequence (sequences only
arise from folding repeated tags one level up). -/
theorem xmlValue_ne_seq : ∀ (e : XElem) (l : List JValue), xmlValue e ≠ .seq l := by
  intro e l
  cases e with
  | mk tg attrib children text =>
    simp only [xmlValue]
    split_ifs <;> intro h <;> cases h

theorem getKey_nil (t : String) : getKey [] t = none := rfl

/-- Helper: updating key `k` leaves lookups of other keys unchanged. -/
theorem getKey_setKey_other (k t : String) (v : JValue) (hne : ¬ k = t) :
    ∀ m : List (String × JValue), getKey (setKey m k v) t = getKey m t := by
  intro m
  induction m with
  | nil =>
    simp only [setKey, getKey, List.find?]
    rw [show (k == t) = false from beq_eq_false_iff_ne.mpr hne]
  | cons a m ih =>
    simp only [setKey]
    split_ifs with hk
    · simp only [getKey, List.find?]
      rw [show (k == t) = false from beq_eq_false_iff_ne.mpr hne]
      rw [show (a.1 == t) = false from beq_eq_false_iff_ne.mpr (by
        intro h
        apply hne
        rw [← h]
        exact (beq_iff_eq.mp hk).symm)]
    · simp only [getKey, List.find?]
      cases hat : (a.1 == t)
      · simpa [getKey] using ih
      · rfl

/-- Helper: updating key `k` makes lookup of `k` return the new value. -/
theorem getKey_setKey_self (k : String) (v : JValue) :
    ∀ m : List (String × JValue), getKey (setKey m k v) k = some v := by
  intro m
  induction m with
  | nil => simp [setKey, getKey, List.find?]
  | cons a m ih =>
    simp only [setKey]
    split_ifs with hk
    · simp [getKey, List.find?]
    · simp only [getKey, List.find?]
      cases hat : (a.1 == k)
      · simpa [getKey] using ih
      · exact absurd (beq_iff_eq.mp hat) (by simpa using hk)

/-- Helper: `addChild` at the child's own tag performs one combining step. -/
theorem getKey_addChild_self (ct : String) (cv : JValue) (node : List (String × JValue)) :
    getKey (addChild node ct cv) ct = combineStep (getKey node ct) cv := by
  unfold addChild
  cases hk : getKey node ct with
  | none =>
    simp only [combineStep]
    unfold getKey at hk ⊢
    induction node with
    | nil => simp [List.find?]
    | cons a m ih =>
      simp only [List.find?] at hk ⊢
      cases hat : (a.1 == ct)
      · rw [hat] at hk
        simp only [List.cons_append, List.find?, hat]
        exact ih (by simpa [hat] using hk)
      · rw [hat] at hk
        simp at hk
  | some w =>
    cases w with
    | seq l => simp [combineStep, getKey_setKey_self]
    | null => simp [combineStep, getKey_setKey_self]
    | str s => simp [combineStep, getKey_setKey_self]
    | int n => simp [combineStep, getKey_setKey_self]
    | bool b => simp [combineStep, getKey_setKey_self]
    | obj m => simp [combineStep, getKey_setKey_self]

/-- Helper: `addChild` under a different tag leaves other lookups alone. -/
theorem getKey_addChild_other (ct t : String) (cv : JValue) (hne : ¬ ct = t)
    (node : List (String × JValue)) :
    getKey (addChild node ct cv) t = getKey node t := by
  unfold addChild
  cases hk : getKey node ct with
  | none =>
    unfold getKey
    rw [List.find?_append]
    simp only [List.find?]
    rw [show (ct == t) = false from beq_eq_false_iff_ne.mpr hne]
    simp [getKey]
  | some w =>
    cases w <;> simp [getKey_setKey_other ct t _ hne]
/-- Helper: at any fixed tag `t`, folding the children into the node applies
one combining step per child whose stripped tag is `t`, in document order. -/
theorem getKey_xmlFold (t : String) :
    ∀ (cs : List XElem) (node : List (String × JValue)),
      getKey (xmlFold cs node) t =
        combineVals (getKey node t)
          ((cs.filter (fun c => stripNs c.tag == t)).map xmlValue) := by
  intro cs
  induction cs with
  | nil => intro node; rfl
  | cons c cs ih =>
    intro node
    rw [show xmlFold (c :: cs) node =
        xmlFold cs (addChild node (stripNs c.tag) (xmlValue c)) from rfl]
    rw [ih]
    by_cases hct : stripNs c.tag = t
    · rw [List.filter_cons_of_pos (by simp [hct])]
      rw [List.map_cons]
      rw [show combineVals (getKey node t)
            (xmlValue c :: (cs.filter (fun c => stripNs c.tag == t)).map xmlValue) =
          combineVals (combineStep (getKey node t) (xmlValue c))
            ((cs.filter (fun c => stripNs c.tag == t)).map xmlValue) from rfl]
      rw [← hct, getKey_addChild_self]
    · rw [List.filter_cons_of_neg (by simp [hct])]
      rw [getKey_addChild_other _ _ _ hct]

/-- Helper: combining a nonempty tail onto a sequence appends it. -/
theorem combineVals_seq :
    ∀ (vs : List JValue) (l : List JValue),
      combineVals (some (.seq l)) vs = some (.seq (l ++ vs)) := by
  intro vs
  induction vs with
  | nil => intro l; simp [combineVals]
  | cons v vs ih =>
    intro l
    rw [show combineVals (some (JValue.seq l)) (v :: vs) =
        combineVals (some (JValue.seq (l ++ [v]))) vs from rfl]
    rw [ih]
    simp

/-- Helper: combining two or more non-sequence-headed values yields the
sequence of all of them in order. -/
theorem combineVals_two (v v2 : JValue) (vs : List JValue)
    (hv : ∀ l, v ≠ .seq l) :
    combineVals none (v :: v2 :: vs) = some (.seq (v :: v2 :: vs)) := by
  rw [show combineVals none (v :: v2 :: vs) = combineVals (some v) (v2 :: vs) from rfl]
  have hstep : combineStep (some v) v2 = some (.seq [v, v2]) := by
    cases v with
    | seq l => exact absurd rfl (hv l)
    | null => rfl
    | str s => rfl
    | int n => rfl
    | bool b => rfl
    | obj m => rfl
  rw [show combineVals (some v) (v2 :: vs) = combineVals (combineStep (some v) v2) vs
    from rfl]
  rw [hstep, combineVals_seq]
  rfl

/-- Helper: a started combining chain never collapses back to `none`. -/
theorem combineVals_ne_none :
    ∀ (vs : List JValue) (v : JValue), combineVals (some v) vs ≠ none := by
  intro vs
  induction vs with
  | nil => intro v; simp [combineVals]
  | cons v2 vs ih =>
    intro v
    rw [show combineVals (some v) (v2 :: vs) =
      combineVals (combineStep (some v) v2) vs from rfl]
    cases v with
    | seq l => exact ih _
    | null => exact ih _
    | str s => exact ih _
    | int n => exact ih _
    | bool b => exact ih _
    | obj m => exact ih _

/-- C7: in the converted form of an XML element, a child tag occurring two
or more times maps to the sequence of the converted child values in document
order, while a child tag occurring exactly once maps to its bare converted
value (hypotheses: child tags do not collide with the `@`-prefixed attribute
keys or the `#text` key, which XML tag syntax guarantees). -/
theorem C7_repeated_children_fold :
    ∀ (e : XElem) (t : String),
      (∀ p ∈ e.attrib, ¬ t = "@" ++ p.1) →
      ¬ t = "#text" →
      ((∀ v, (e.children.filter (fun c => stripNs c.tag == t)).map xmlValue = [v] →
        getKey (objFields (xmlValue e)) t = some v) ∧
       (∀ v v2 vs,
        (e.children.filter (fun c => stripNs c.tag == t)).map xmlValue = v :: v2 :: vs →
        getKey (objFields (xmlValue e)) t = some (.seq (v :: v2 :: vs)))) := by
  intro e t hattr htext
  obtain ⟨tg, attrib, children, text⟩ := e
  simp only [XElem.attrib] at hattr
  have hnode0 : getKey (attrib.map (fun p => ("@" ++ p.1, JValue.str p.2))) t = none := by
    unfold getKey
    rw [List.find?_eq_none.mpr]
    · rfl
    · intro a ha
      rw [List.mem_map] at ha
      obtain ⟨p, hp, hpa⟩ := ha
      subst hpa
      simp only
      rw [beq_eq_false_iff_ne.mpr (fun h => hattr p hp h.symm)]
      simp
  have hchildren : ∀ vals,
      (children.filter (fun c => stripNs c.tag == t)).map xmlValue = vals →
      vals ≠ [] →
      getKey (objFields (xmlValue (.mk tg attrib children text))) t =
        combineVals none vals := by
    intro vals hvals hne
    have hch : ¬ children = [] := by
      intro h0
      subst h0
      simp at hvals
      exact hne hvals
    simp only [xmlValue]
    rw [if_neg (by
      intro hcond
      simp only [Bool.and_eq_true] at hcond
      exact hch (List.isEmpty_iff.mp hcond.1.2))]
    have hfold : getKey (xmlFold children
        (attrib.map (fun p => ("@" ++ p.1, JValue.str p.2)))) t = combineVals none vals := by
      rw [getKey_xmlFold t children _, hnode0, hvals]
    have hkeep : getKey (if !(pyStrip text == "") then
        setKey (xmlFold children (attrib.map (fun p => ("@" ++ p.1, JValue.str p.2))))
          "#text" (.str (pyStrip text))
        else xmlFold children (attrib.map (fun p => ("@" ++ p.1, JValue.str p.2)))) t =
        combineVals none vals := by
      split_ifs with htx
      · rw [getKey_setKey_other _ _ _ (fun h => htext h.symm), hfold]
      · exact hfold
    rw [if_neg (by
      intro hemp
      rw [List.isEmpty_iff] at hemp
      rw [hemp, getKey_nil] at hkeep
      cases vals with
      | nil => exact hne rfl
      | cons v vs => exact combineVals_ne_none vs v hkeep.symm)]
    exact hkeep
  constructor
  · intro v hv
    rw [hchildren [v] hv (by simp)]
    rfl
  · intro v v2 vs hv
    have hv' : (children.filter (fun c => stripNs c.tag == t)).map xmlValue =
        v :: v2 :: vs := hv
    rw [hchildren (v :: v2 :: vs) hv' (by simp)]
    apply combineVals_two
    intro l hl
    have : v ∈ (children.filter (fun c => stripNs c.tag == t)).map xmlValue := by
      rw [hv']
      exact List.mem_cons_self _ _
    rw [List.mem_map] at this
    obtain ⟨c, _, hc⟩ := this
    exact xmlValue_ne_seq c l (hc.trans hl)
/-- The element used by the C7 witness: two `a` children and one `b` child. -/
def c7elem : XElem :=
  .mk "root" [] [.mk "a" [] [] "1", .mk "a" [] [] "2", .mk "b" [] [] "x"] ""

/-- Witness for C7: the repeated tag `a` folds to a sequence of its two
values in document order, the once-occurring tag `b` stays a bare value. -/
theorem C7_witness :
    getKey (objFields (xmlValue c7elem)) "a" = some (.seq [.str "1", .str "2"]) ∧
    getKey (objFields (xmlValue c7elem)) "b" = some (.str "x") := by
  constructor
  · exact (C7_repeated_children_fold c7elem "a"
      (by intro p hp; simp [c7elem, XElem.attrib] at hp) (by decide)).2
      (.str "1") (.str "2") [] (by decide)
  · exact (C7_repeated_children_fold c7elem "b"
      (by intro p hp; simp [c7elem, XElem.attrib] at hp) (by decide)).1
      (.str "x") (by decide)

/-- The talker node used by the C1 witness: one config-list entry with a
non-zero `time-aware-offset`. -/
def c1talker : JValue :=
  .obj [("end-station-interfaces", .obj [("mac-address", .str "de-ad-be-ef-00-01")]),
        ("interface-configuration", .obj [("interface-list", .obj [
          ("interface-name", .str "eth0"),
          ("config-list", .obj [("time-aware-offset", .str "78600")])])])]

/-- The one-stream document used by the C1 witness. -/
def c1doc : JValue :=
  .obj [("cnc-config", .obj [("domain", .obj [("cuc", .obj [("stream", .obj [
    ("stream-id", .str "de-ad-be-ef-00-01:00-05"),
    ("talker", c1talker)])])])])]

/-- Witness for C1: the concrete talker's record is time-aware, its
config-list indeed carries a time signal, and the record the pipeline stores
for it is in the image of `mkTalkerEntry`. -/
theorem C1_witness :
    (mkTalkerEntry c1talker).time_aware = true ∧
    (∃ cfg ∈ cfgListOf c1talker, cfgTimeSignal cfg = true) ∧
    (∃ t : JValue, mkTalkerEntry c1talker = mkTalkerEntry t) := by
  refine ⟨by decide, ?_, ?_⟩
  · exact (C1_time_aware_iff.1 c1talker).mp (by decide)
  · exact C1_time_aware_iff.2 [c1doc]
      (JValue.str "de-ad-be-ef-00-01:00-05", [mkTalkerEntry c1talker])
      (by decide) (mkTalkerEntry c1talker) (by decide)
